import Mathlib

/-!
# Algorithm / container plumbing of the DAAL numerical library

A shallow embedding of the accessor, copy-construction and allocation code of
the library's algorithm classes:

* `include/algorithms/moments/low_order_moments_batch.h`
* `algorithms/kernel/dtrees/forest/regression/df_regression_predict_result.h`
* `algorithms/kernel/dtrees/gbt/regression/gbt_regression_training_result.cpp`
* `include/algorithms/neural_networks/neural_networks_training_distributed.h`
* `algorithms/kernel/neural_networks/neural_networks_training_batch_container.h`
* `algorithms/kernel/normalization/minmax/minmax_parameter_fpt.cpp`
* `algorithms/kernel/cosdistance/cosdistance_dense_default_batch_fpt_dispatcher.cpp`
* `include/algorithms/neural_networks/initializers/truncated_gaussian/truncated_gaussian_initializer_types.h`
* `include/algorithms/neural_networks/layers/split/split_layer_backward_types.h`

Conventions of the embedding.

* A C++ object that lives on the heap is an `Obj`: its address together with
  its value.  A raw pointer `T*` is `Option (Obj T)` (`none` is `NULL`), a
  `services::SharedPtr<T>` wraps the raw pointer it owns (reference counts
  only drive deallocation and are left out).  Two pointers are equal exactly
  when they hold the same address and see the same object.
* `new T(...)` draws a fresh address from a `Heap`, which is threaded through
  every function that allocates.
* A member function is a Lean function from the object (and the heap when it
  allocates) to the updated object.
* Template arguments (`algorithmFPType`, `method`, `cpu`) are fields of the
  object.
* A call of a function that is not part of the sources at hand (a member of a
  kernel, `Model::initialize`) is returned as a record of the object it is
  called on and of its arguments.
* A function that reads an object through a pointer returns an `Option`;
  `none` stands for the read through a null pointer.  Binding a reference to
  `*p` that is only passed on reads nothing and is no such case.
* Classes whose declaration is not part of the sources at hand (`Parameter`,
  `Result`, `PartialResult` of an algorithm) are type parameters; their
  default constructor is `default`.
-/

set_option autoImplicit false

namespace daal

/-- Floating-point type chosen for the template argument `algorithmFPType`. -/
inductive FPType
  | float
  | double
  deriving DecidableEq, Repr

/-- Computation mode of an algorithm container. -/
inductive ComputeMode
  | batch
  | distributed
  | online
  deriving DecidableEq, Repr

/-- Step of a distributed algorithm. -/
inductive ComputeStep
  | step1Local
  | step2Master
  deriving DecidableEq, Repr

namespace services

/-- Identifiers of the errors the embedded code reports. -/
inductive ErrorID
  | ErrorNullResult
  | ErrorMemoryAllocationFailed
  deriving DecidableEq, Repr

/-- The class `services::Status`: the errors collected so far; a
default-constructed status holds none. -/
structure Status where
  errors : List ErrorID
  deriving DecidableEq, Repr

/-- The default constructor `Status()`. -/
def Status.create : Status := ⟨[]⟩

/-- The conversion `Status::ok()`: no error was collected. -/
def Status.ok (s : Status) : Bool := s.errors.isEmpty

/-- A heap object: the address it lives at and its value. -/
structure Obj (α : Type) where
  addr : Nat
  val : α
  deriving DecidableEq, Repr

/-- A raw pointer `T*`; `none` is the null pointer. -/
abbrev RawPtr (α : Type) := Option (Obj α)

/-- The class `services::SharedPtr<T>`, holding the raw pointer it owns. -/
structure SharedPtr (α : Type) where
  _ptr : RawPtr α
  deriving DecidableEq, Repr

/-- The default constructor `SharedPtr<T>()`: an empty (null) pointer. -/
def SharedPtr.null {α : Type} : SharedPtr α := ⟨none⟩

/-- The member `SharedPtr<T>::get()`: the raw pointer owned. -/
def SharedPtr.get {α : Type} (p : SharedPtr α) : RawPtr α := p._ptr

/-- The member `SharedPtr<T>::operator bool()`: true for a non-null pointer. -/
def SharedPtr.toBool {α : Type} (p : SharedPtr α) : Bool := p._ptr.isSome

/-- The allocator state: the next address `new` hands out. -/
structure Heap where
  next : Nat
  deriving DecidableEq, Repr

/-- The expression `new T(v)`: a fresh address holding the value `v`. -/
def Heap.alloc {α : Type} (h : Heap) (v : α) : RawPtr α × Heap :=
  (some ⟨h.next, v⟩, ⟨h.next + 1⟩)

/-- The expression `SharedPtr<T>(new T(v))`. -/
def SharedPtr.create {α : Type} (h : Heap) (v : α) : SharedPtr α × Heap :=
  (⟨(h.alloc v).1⟩, (h.alloc v).2)

/-- Modelled from the spec: the macro `DAAL_CHECK(cond, error)` is not part of
the sources at hand.  In a member function without a return value it makes the
function report the failure ("failures are reported, not recovered"): when
`cond` is false the error is added to the error collection `_errors` of the
object and the function returns at once; otherwise the rest `body` of the
function runs.  Here `report` adds an error to the object's collection. -/
def DAAL_CHECK {σ : Type} (cond : Bool) (error : ErrorID) (report : ErrorID → σ → σ)
    (body : σ → σ) (self : σ) : σ :=
  if !cond then report error self else body self

end services

namespace data_management

/-- What the embedded code observes of a numeric table: its dimensions and,
for a `HomogenNumericTable<T>`, the type `T` of its entries. -/
structure NumericTable where
  nColumns : Nat
  nRows : Nat
  homogen : Option FPType
  deriving DecidableEq, Repr

/-- The member `NumericTable::getNumberOfRows()`. -/
def NumericTable.getNumberOfRows (t : NumericTable) : Nat := t.nRows

/-- The member `NumericTable::getNumberOfColumns()`. -/
def NumericTable.getNumberOfColumns (t : NumericTable) : Nat := t.nColumns

/-- The dynamic class of an object stored behind a `SerializationIfacePtr`,
with the content the embedded code reads. -/
inductive SerializationIface
  | numericTable (t : NumericTable)
  | tensor (dims : List Nat)
  | keyValueDataCollection (keys : List Nat)
  | model (tag : Nat)
  deriving DecidableEq, Repr

/-- Pointers to serializable objects.  The typed pointers of the library
(`NumericTablePtr`, `TensorPtr`, `KeyValueDataCollectionPtr`, `ModelPtr`) are
obtained from a `SerializationIfacePtr` by `staticPointerCast`, which keeps
the address: they are the same pointer. -/
abbrev SerializationIfacePtr := services.SharedPtr SerializationIface

abbrev NumericTablePtr := SerializationIfacePtr
abbrev TensorPtr := SerializationIfacePtr
abbrev KeyValueDataCollectionPtr := SerializationIfacePtr

/-- The enumeration `NumericTableIface::AllocationFlag`: whether the memory
of a numeric table is allocated when the table is created. -/
inductive AllocationFlag
  | doNotAllocate
  | doAllocate
  deriving DecidableEq, Repr

end data_management

namespace algorithms

open services data_management

/-- Modelled from the spec: the class `daal::algorithms::Argument`, base of
every `Input`, `Result` and `PartialResult`, is not part of the sources at
hand.  It backs the "get/set accessors": a fixed number of slots, one per
identifier, each holding a shared pointer.  `get` returns the pointer stored
in a slot (the empty pointer for an index out of range), `set` overwrites the
slot and leaves the other slots alone. -/
structure Argument (α : Type) where
  _storage : List (SharedPtr α)
  deriving DecidableEq, Repr

/-- The constructor `Argument(nElements)`: `nElements` empty slots. -/
def Argument.create {α : Type} (nElements : Nat) : Argument α :=
  ⟨List.replicate nElements SharedPtr.null⟩

/-- The member `Argument::size()`. -/
def Argument.size {α : Type} (a : Argument α) : Nat := a._storage.length

/-- The member `Argument::get(index)`. -/
def Argument.get {α : Type} (a : Argument α) (index : Nat) : SharedPtr α :=
  a._storage.getD index SharedPtr.null

/-- The member `Argument::set(index, value)`. -/
def Argument.set {α : Type} (a : Argument α) (index : Nat) (value : SharedPtr α) :
    Argument α :=
  ⟨a._storage.set index value⟩

/-- The data members of an algorithm object the base class points at. -/
inductive Member
  | input
  | parameter
  deriving DecidableEq, Repr

/-- The address of a data member of an algorithm object (`&input`,
`&parameter`): the address of the object and the member. -/
structure MemberPtr where
  object : Nat
  member : Member
  deriving DecidableEq, Repr

/-- The container `__DAAL_ALGORITHM_CONTAINER(mode, Container, ...)` an
algorithm creates for itself: the template arguments it is instantiated
with. -/
structure AlgorithmContainer (Method : Type) where
  mode : ComputeMode
  step : Option ComputeStep
  algorithmFPType : FPType
  method : Method
  deriving DecidableEq, Repr

/-- The data members every algorithm inherits from `daal::algorithms::Algorithm`:
the raw pointers handed to the container and the collection of errors. -/
structure AlgorithmBase (Method Result PartialResult : Type) where
  address : Nat
  _in : Option MemberPtr
  _par : Option MemberPtr
  _res : RawPtr Result
  _pres : RawPtr PartialResult
  _ac : RawPtr (AlgorithmContainer Method)
  _errors : List ErrorID
  deriving DecidableEq, Repr

/-- The constructor of the base class for an object built at `address`: all
pointers are null and no error is recorded. -/
def AlgorithmBase.create {Method Result PartialResult : Type} (address : Nat) :
    AlgorithmBase Method Result PartialResult :=
  { address := address, _in := none, _par := none, _res := none, _pres := none,
    _ac := none, _errors := [] }

namespace low_order_moments

/-- Identifiers of the input objects of the low order moments algorithm. -/
inductive InputId
  | data
  deriving DecidableEq, Repr

/-- The slot of an input identifier. -/
def InputId.toNat : InputId → Nat
  | .data => 0

/-- The last input identifier. -/
def lastInputId : InputId := .data

/-- Modelled from the spec: the class `low_order_moments::Input` is not part
of the sources at hand.  It is an `Argument` with one slot per input
identifier whose accessors read and write the slot of the identifier. -/
structure Input where
  toArgument : Argument SerializationIface
  deriving DecidableEq, Repr

/-- The default constructor `Input()`. -/
def Input.create : Input := ⟨Argument.create (lastInputId.toNat + 1)⟩

/-- The accessor `Input::get(InputId)`. -/
def Input.get (self : Input) (id : InputId) : NumericTablePtr :=
  self.toArgument.get id.toNat

/-- The accessor `Input::set(InputId, ptr)`. -/
def Input.set (self : Input) (id : InputId) (ptr : NumericTablePtr) : Input :=
  ⟨self.toArgument.set id.toNat ptr⟩

/-- The class `BatchIface`: the members `input`, `parameter` and `_result`
on top of the inherited members of `Analysis<batch>`. -/
structure BatchIface (Method Parameter Result : Type) extends
    AlgorithmBase Method Result Unit where
  input : Input
  parameter : Parameter
  _result : SharedPtr Result

section

variable {Method Parameter Result : Type}

/-- The object before the body of a constructor runs: the base class and the
members `input`, `parameter`, `_result` are default-constructed. -/
def BatchIface.members [Inhabited Parameter] (address : Nat) :
    BatchIface Method Parameter Result :=
  { toAlgorithmBase := AlgorithmBase.create address
    input := Input.create
    parameter := default
    _result := SharedPtr.null }

/-- The member `BatchIface::initialize()`. -/
def BatchIface.initialize [Inhabited Result] (self : BatchIface Method Parameter Result)
    (h : Heap) : BatchIface Method Parameter Result × Heap :=
  let r := SharedPtr.create h (default : Result)
  ({ self with
      _result := r.1
      _in := some ⟨self.address, .input⟩
      _par := some ⟨self.address, .parameter⟩ }, r.2)

/-- The default constructor `BatchIface()`. -/
def BatchIface.create [Inhabited Parameter] [Inhabited Result] (address : Nat) (h : Heap) :
    BatchIface Method Parameter Result × Heap :=
  BatchIface.initialize (BatchIface.members address) h

/-- The copy constructor `BatchIface(const BatchIface &other)`. -/
def BatchIface.copy [Inhabited Parameter] [Inhabited Result] (address : Nat)
    (other : BatchIface Method Parameter Result) (h : Heap) :
    BatchIface Method Parameter Result × Heap :=
  let s := BatchIface.initialize
    (BatchIface.members address : BatchIface Method Parameter Result) h
  let self := s.1
  let self := { self with parameter := other.parameter }
  let self := { self with input := self.input.set .data (other.input.get .data) }
  (self, s.2)

/-- The member `BatchIface::getResult()`. -/
def BatchIface.getResult (self : BatchIface Method Parameter Result) : SharedPtr Result :=
  self._result

/-- Adding an error to the error collection of the algorithm. -/
def BatchIface.addError (error : ErrorID) (self : BatchIface Method Parameter Result) :
    BatchIface Method Parameter Result :=
  { self with _errors := self._errors ++ [error] }

/-- The member `BatchIface::setResult(result)`. -/
def BatchIface.setResult (self : BatchIface Method Parameter Result)
    (result : SharedPtr Result) : BatchIface Method Parameter Result :=
  DAAL_CHECK result.toBool .ErrorNullResult BatchIface.addError
    (fun self =>
      let self := { self with _result := result }
      { self with _res := self._result.get })
    self

/-- The class template `Batch<algorithmFPType, method>`. -/
structure Batch (Method Parameter Result : Type) extends
    BatchIface Method Parameter Result where
  algorithmFPType : FPType
  method : Method

/-- The member `Batch::initialize()`: it creates the container of the
algorithm. -/
def Batch.initialize (self : Batch Method Parameter Result) (h : Heap) :
    Batch Method Parameter Result × Heap :=
  let c := h.alloc
    ({ mode := .batch, step := none, algorithmFPType := self.algorithmFPType,
       method := self.method } : AlgorithmContainer Method)
  ({ self with _ac := c.1 }, c.2)

/-- The default constructor `Batch()`, after the one of `BatchIface`. -/
def Batch.create [Inhabited Parameter] [Inhabited Result] (algorithmFPType : FPType)
    (method : Method) (address : Nat) (h : Heap) : Batch Method Parameter Result × Heap :=
  let b := BatchIface.create address h
  Batch.initialize
    { toBatchIface := b.1, algorithmFPType := algorithmFPType, method := method } b.2

/-- The copy constructor `Batch(const Batch &other) : BatchIface(other)`. -/
def Batch.copy [Inhabited Parameter] [Inhabited Result] (address : Nat)
    (other : Batch Method Parameter Result) (h : Heap) :
    Batch Method Parameter Result × Heap :=
  let b := BatchIface.copy address other.toBatchIface h
  Batch.initialize
    { toBatchIface := b.1, algorithmFPType := other.algorithmFPType,
      method := other.method } b.2

/-- The member `Batch::cloneImpl()`: `new Batch<algorithmFPType, method>(*this)`;
the storage of the new object is obtained first, then it is copy-constructed
there. -/
def Batch.cloneImpl [Inhabited Parameter] [Inhabited Result]
    (self : Batch Method Parameter Result) (h : Heap) :
    RawPtr (Batch Method Parameter Result) × Heap :=
  let address := h.next
  let c := Batch.copy address self ⟨h.next + 1⟩
  (some ⟨address, c.1⟩, c.2)

/-- The member `Batch::clone()`. -/
def Batch.clone [Inhabited Parameter] [Inhabited Result]
    (self : Batch Method Parameter Result) (h : Heap) :
    SharedPtr (Batch Method Parameter Result) × Heap :=
  (⟨(self.cloneImpl h).1⟩, (self.cloneImpl h).2)

/-- The member `Batch::getMethod()`. -/
def Batch.getMethod (self : Batch Method Parameter Result) : Method := self.method

end

end low_order_moments

namespace decision_forest.regression.prediction

/-- Identifiers of the numeric table inputs of model-based prediction. -/
inductive NumericTableInputId
  | data
  deriving DecidableEq, Repr

/-- Identifiers of the model inputs of model-based prediction. -/
inductive ModelInputId
  | model
  deriving DecidableEq, Repr

/-- Identifiers of the results of model-based prediction. -/
inductive ResultId
  | prediction
  deriving DecidableEq, Repr

/-- The slot of a numeric table input. -/
def NumericTableInputId.toNat : NumericTableInputId → Nat
  | .data => 0

/-- The slot of a model input. -/
def ModelInputId.toNat : ModelInputId → Nat
  | .model => 1

/-- The slot of a result. -/
def ResultId.toNat : ResultId → Nat
  | .prediction => 0

/-- Modelled from the spec: the class `prediction::Input` is not part of the
sources at hand.  It is an `Argument` with one slot per input identifier and
the accessor `get(NumericTableInputId)` reads the slot of the identifier. -/
structure Input where
  toArgument : Argument SerializationIface
  deriving DecidableEq, Repr

/-- The accessor `Input::get(NumericTableInputId)`. -/
def Input.get (self : Input) (id : NumericTableInputId) : NumericTablePtr :=
  self.toArgument.get id.toNat

/-- Modelled from the spec: the declaration of the class `prediction::Result`
is not part of the sources at hand (its member `allocate` is).  It is an
`Argument` whose constructor makes one slot per result identifier; the field
`slots` records this. -/
structure Result where
  toArgument : Argument SerializationIface
  slots : toArgument.size = ResultId.prediction.toNat + 1

/-- The default constructor `Result()`. -/
def Result.create : Result :=
  ⟨Argument.create (ResultId.prediction.toNat + 1), by simp [Argument.create, Argument.size]⟩

/-- The accessor `Result::get(ResultId)`. -/
def Result.get (self : Result) (id : ResultId) : NumericTablePtr :=
  self.toArgument.get id.toNat

/-- The accessor `Result::set(ResultId, value)`. -/
def Result.set (self : Result) (id : ResultId) (value : NumericTablePtr) : Result :=
  ⟨self.toArgument.set id.toNat value, by
    simpa [Argument.set, Argument.size] using self.slots⟩

/-- The static member `HomogenNumericTable<T>::create(nColumns, nRows,
memoryAllocationFlag, &st)`, which is not part of the sources at hand and is
taken as a parameter: from the template argument `T`, the requested
dimensions, the allocation flag and the status passed by address it gives
the pointer it returns and the status it leaves behind. -/
abbrev HomogenNumericTableCreate :=
  FPType → Nat → Nat → AllocationFlag → Status → NumericTablePtr × Status

/-- The member `Result::allocate<algorithmFPType>(input, par, method)`.  The
result is `none` when the code dereferences a null pointer (`input` or its
`data` table is null, or is not a numeric table), which has no defined
behaviour. -/
def Result.allocate {Parameter : Type} (create : HomogenNumericTableCreate)
    (algorithmFPType : FPType) (self : Result) (input : RawPtr Input)
    (_par : RawPtr Parameter) (_method : Int) : Option (Result × Status) :=
  match input with
  | none => none
  | some inp =>
    match (inp.val.get .data).get with
    | some ⟨_, .numericTable t⟩ =>
      let nVectors := t.getNumberOfRows
      let st := Status.create
      let c := create algorithmFPType 1 nVectors .doAllocate st
      let self := self.set .prediction c.1
      let st := c.2
      some (self, st)
    | _ => none

/-- A table factory for a machine on which `available` bytes of memory are
left, an instance of the parameter `HomogenNumericTableCreate`: a table of
`nColumns * nRows` entries of the requested type that fits is created at
`address` and the status is left as it is; otherwise the factory returns the
empty pointer and adds `ErrorMemoryAllocationFailed` to the status. -/
def createBounded (available address : Nat) : HomogenNumericTableCreate :=
  fun fp nColumns nRows _ st =>
    let bytes := nColumns * nRows * (match fp with | .float => 4 | .double => 8)
    if bytes ≤ available then
      (⟨some ⟨address, .numericTable ⟨nColumns, nRows, some fp⟩⟩⟩, st)
    else
      (SharedPtr.null, ⟨st.errors ++ [.ErrorMemoryAllocationFailed]⟩)

/-- What a table factory owes its caller: a table it returns is homogeneous,
of the requested type and of the requested dimensions. -/
def HonoursRequest (create : HomogenNumericTableCreate) : Prop :=
  ∀ (fp : FPType) (nColumns nRows : Nat) (flag : AllocationFlag) (st : Status)
    (o : Obj SerializationIface),
    (create fp nColumns nRows flag st).1.get = some o →
      o.val = .numericTable ⟨nColumns, nRows, some fp⟩

/-- An input object at address 16 whose `data` table, at address 32, has 5
columns and 3 rows; no model is set. -/
def sampleInput : Obj Input :=
  ⟨16, ⟨⟨[⟨some ⟨32, .numericTable ⟨5, 3, some .double⟩⟩⟩, SharedPtr.null]⟩⟩⟩

end decision_forest.regression.prediction

namespace regression

/-- The dynamic class of an object seen through a pointer to the base class
`algorithms::regression::Model`: a gradient boosted trees regression model
(of content `GbtModel`) or a model of another algorithm. -/
inductive Model (GbtModel : Type)
  | gbt (m : GbtModel)
  | other (tag : Nat)
  deriving DecidableEq, Repr

/-- The type `regression::ModelPtr`. -/
abbrev ModelPtr (GbtModel : Type) := SharedPtr (Model GbtModel)

namespace training

/-- The enumeration `regression::training::ResultId`, by its integer value. -/
structure ResultId where
  value : Nat
  deriving DecidableEq, Repr

/-- Modelled from the spec: the class `regression::training::Result`, base of
the results of the regression training algorithms, is not part of the
sources at hand.  It is an `Argument` of `nElements` slots holding regression
models and its accessors read and write the slot of the identifier. -/
structure Result (GbtModel : Type) where
  toArgument : Argument (Model GbtModel)
  deriving DecidableEq, Repr

/-- The constructor `Result(nElements)`. -/
def Result.create {GbtModel : Type} (nElements : Nat) : Result GbtModel :=
  ⟨Argument.create nElements⟩

/-- The accessor `Result::get(ResultId)`. -/
def Result.get {GbtModel : Type} (self : Result GbtModel) (id : ResultId) :
    ModelPtr GbtModel :=
  self.toArgument.get id.value

/-- The accessor `Result::set(ResultId, value)`. -/
def Result.set {GbtModel : Type} (self : Result GbtModel) (id : ResultId)
    (value : ModelPtr GbtModel) : Result GbtModel :=
  ⟨self.toArgument.set id.value value⟩

end training

end regression

namespace gbt.regression

/-- The type `gbt::regression::ModelPtr`: a pointer to an object of class
`gbt::regression::Model`, of content `GbtModel`. -/
abbrev ModelPtr (GbtModel : Type) := SharedPtr GbtModel

/-- The implicit conversion of a `gbt::regression::ModelPtr` to a pointer to
the base class `regression::Model`: same address, same object. -/
def ModelPtr.toBase {GbtModel : Type} (p : ModelPtr GbtModel) :
    algorithms.regression.ModelPtr GbtModel :=
  ⟨p._ptr.map fun o => ⟨o.addr, .gbt o.val⟩⟩

/-- The member `gbt::regression::Model::cast`, a dynamic pointer cast: the
same pointer when the object is a gradient boosted trees regression model,
the empty pointer otherwise. -/
def Model.cast {GbtModel : Type} (p : algorithms.regression.ModelPtr GbtModel) :
    ModelPtr GbtModel :=
  ⟨p._ptr.bind fun o =>
    match o.val with
    | .gbt m => some ⟨o.addr, m⟩
    | .other _ => none⟩

namespace training

/-- The enumeration `gbt::regression::training::ResultId`, whose declaration
is not part of the sources at hand: its enumerators are the integer values up
to `lastResultId`, which is taken as a parameter. -/
abbrev ResultId (lastResultId : Nat) := Fin (lastResultId + 1)

/-- The conversion `algorithms::regression::training::ResultId(id)`. -/
def ResultId.toBase {lastResultId : Nat} (id : ResultId lastResultId) :
    algorithms.regression.training.ResultId :=
  ⟨id.val⟩

/-- The class `gbt::regression::training::Result`, derived from
`regression::training::Result`; the field `slots` records what its only
constructor establishes. -/
structure Result (GbtModel : Type) (lastResultId : Nat) where
  toBase : algorithms.regression.training.Result GbtModel
  slots : toBase.toArgument.size = lastResultId + 1

/-- The constructor `Result() : regression::training::Result(lastResultId + 1)`. -/
def Result.create {GbtModel : Type} (lastResultId : Nat) : Result GbtModel lastResultId :=
  ⟨algorithms.regression.training.Result.create (lastResultId + 1), by
    simp [algorithms.regression.training.Result.create, Argument.create, Argument.size]⟩

/-- The member `Result::get(ResultId id)`. -/
def Result.get {GbtModel : Type} {lastResultId : Nat} (self : Result GbtModel lastResultId)
    (id : ResultId lastResultId) : ModelPtr GbtModel :=
  Model.cast (self.toBase.get id.toBase)

/-- The member `Result::set(ResultId id, value)`. -/
def Result.set {GbtModel : Type} {lastResultId : Nat} (self : Result GbtModel lastResultId)
    (id : ResultId lastResultId) (value : ModelPtr GbtModel) :
    Result GbtModel lastResultId :=
  ⟨self.toBase.set id.toBase value.toBase, by
    simpa [algorithms.regression.training.Result.set, Argument.set, Argument.size]
      using self.slots⟩

/-- The member `regression::training::Result::check(input, par, method)` of
the base class, which is not part of the sources at hand and is taken as a
parameter. -/
abbrev BaseCheck (GbtModel Input Parameter : Type) :=
  algorithms.regression.training.Result GbtModel → RawPtr Input → RawPtr Parameter →
    Int → Status

/-- The member `Result::check(input, par, method)`. -/
def Result.check {GbtModel Input Parameter : Type} {lastResultId : Nat}
    (baseCheck : BaseCheck GbtModel Input Parameter) (self : Result GbtModel lastResultId)
    (input : RawPtr Input) (par : RawPtr Parameter) (method : Int) : Status :=
  baseCheck self.toBase input par method

end training

end gbt.regression

namespace neural_networks.training

/-- Identifiers of the tensor inputs of neural network training. -/
inductive InputId
  | data
  | groundTruth
  deriving DecidableEq, Repr

/-- Identifiers of the collection inputs of neural network training. -/
inductive InputCollectionId
  | groundTruthCollection
  deriving DecidableEq, Repr

/-- Identifiers of the model inputs of the first step of distributed
training. -/
inductive Step1LocalInputId
  | inputModel
  deriving DecidableEq, Repr

/-- Identifiers of the inputs of the second step of distributed training. -/
inductive Step2MasterInputId
  | partialResults
  deriving DecidableEq, Repr

/-- The slot of a tensor input. -/
def InputId.toNat : InputId → Nat
  | .data => 0
  | .groundTruth => 1

/-- The slot of a collection input. -/
def InputCollectionId.toNat : InputCollectionId → Nat
  | .groundTruthCollection => 2

/-- The slot of a model input of the first step. -/
def Step1LocalInputId.toNat : Step1LocalInputId → Nat
  | .inputModel => 3

/-- The slot of an input of the second step. -/
def Step2MasterInputId.toNat : Step2MasterInputId → Nat
  | .partialResults => 0

/-- The type `training::ModelPtr`, a pointer to a serializable object. -/
abbrev ModelPtr := SerializationIfacePtr

/-- Modelled from the spec: the class `training::Input` is not part of the
sources at hand.  It is an `Argument` with one slot per input identifier
whose accessors read and write the slot of the identifier. -/
structure Input where
  toArgument : Argument SerializationIface
  deriving DecidableEq, Repr

/-- The constructor `Input(nElements)`. -/
def Input.create (nElements : Nat) : Input := ⟨Argument.create nElements⟩

/-- The accessor `Input::get(InputId)`. -/
def Input.get (self : Input) (id : InputId) : TensorPtr :=
  self.toArgument.get id.toNat

/-- The accessor `Input::set(InputId, value)`. -/
def Input.set (self : Input) (id : InputId) (value : TensorPtr) : Input :=
  ⟨self.toArgument.set id.toNat value⟩

/-- Modelled from the spec: the class `DistributedInput<step1Local>`, derived
from `training::Input`, is not part of the sources at hand.  It adds the slot
of the input model to those of its base class. -/
structure DistributedInput_step1Local extends Input
  deriving DecidableEq, Repr

/-- The default constructor `DistributedInput<step1Local>()`. -/
def DistributedInput_step1Local.create : DistributedInput_step1Local :=
  ⟨Input.create (Step1LocalInputId.inputModel.toNat + 1)⟩

/-- The accessor `DistributedInput<step1Local>::get(InputId)` of the base
class. -/
def DistributedInput_step1Local.get (self : DistributedInput_step1Local) (id : InputId) :
    TensorPtr :=
  self.toInput.get id

/-- The accessor `DistributedInput<step1Local>::set(InputId, value)` of the
base class. -/
def DistributedInput_step1Local.set (self : DistributedInput_step1Local) (id : InputId)
    (value : TensorPtr) : DistributedInput_step1Local :=
  ⟨self.toInput.set id value⟩

/-- The accessor `DistributedInput<step1Local>::get(Step1LocalInputId)`. -/
def DistributedInput_step1Local.getModel (self : DistributedInput_step1Local)
    (id : Step1LocalInputId) : ModelPtr :=
  self.toArgument.get id.toNat

/-- The accessor `DistributedInput<step1Local>::set(Step1LocalInputId, value)`. -/
def DistributedInput_step1Local.setModel (self : DistributedInput_step1Local)
    (id : Step1LocalInputId) (value : ModelPtr) : DistributedInput_step1Local :=
  ⟨⟨self.toArgument.set id.toNat value⟩⟩

/-- Modelled from the spec: the class `DistributedInput<step2Master>` is not
part of the sources at hand.  It is an `Argument` with one slot per input
identifier whose accessors read and write the slot of the identifier. -/
structure DistributedInput_step2Master where
  toArgument : Argument SerializationIface
  deriving DecidableEq, Repr

/-- The default constructor `DistributedInput<step2Master>()`. -/
def DistributedInput_step2Master.create : DistributedInput_step2Master :=
  ⟨Argument.create (Step2MasterInputId.partialResults.toNat + 1)⟩

/-- The accessor `DistributedInput<step2Master>::get(Step2MasterInputId)`. -/
def DistributedInput_step2Master.get (self : DistributedInput_step2Master)
    (id : Step2MasterInputId) : KeyValueDataCollectionPtr :=
  self.toArgument.get id.toNat

/-- The accessor `DistributedInput<step2Master>::set(Step2MasterInputId, value)`. -/
def DistributedInput_step2Master.set (self : DistributedInput_step2Master)
    (id : Step2MasterInputId) (value : KeyValueDataCollectionPtr) :
    DistributedInput_step2Master :=
  ⟨self.toArgument.set id.toNat value⟩

/-- The class template `Distributed<step1Local, algorithmFPType, method>`. -/
structure Distributed_step1Local (Method Parameter PartialResult Result : Type) extends
    AlgorithmBase Method Result PartialResult where
  algorithmFPType : FPType
  method : Method
  input : DistributedInput_step1Local
  parameter : Parameter
  _partialResult : SharedPtr PartialResult
  _result : SharedPtr Result

section

variable {Method Parameter PartialResult Result : Type}

/-- The object before the body of a constructor runs: the base class and the
data members are default-constructed. -/
def Distributed_step1Local.members
    [Inhabited Parameter] (algorithmFPType : FPType) (method : Method)
    (address : Nat) : Distributed_step1Local Method Parameter PartialResult Result :=
  { toAlgorithmBase := AlgorithmBase.create address
    algorithmFPType := algorithmFPType
    method := method
    input := DistributedInput_step1Local.create
    parameter := default
    _partialResult := SharedPtr.null
    _result := SharedPtr.null }

/-- The member `Distributed<step1Local>::initialize()`. -/
def Distributed_step1Local.initialize [Inhabited PartialResult] [Inhabited Result]
    (self : Distributed_step1Local Method Parameter PartialResult Result) (h : Heap) :
    Distributed_step1Local Method Parameter PartialResult Result × Heap :=
  let c := h.alloc
    ({ mode := .distributed, step := some .step1Local,
       algorithmFPType := self.algorithmFPType, method := self.method } :
      AlgorithmContainer Method)
  let self := { self with _ac := c.1 }
  let self := { self with _in := some ⟨self.address, .input⟩ }
  let self := { self with _par := some ⟨self.address, .parameter⟩ }
  let p := SharedPtr.create c.2 (default : PartialResult)
  let self := { self with _partialResult := p.1 }
  let r := SharedPtr.create p.2 (default : Result)
  let self := { self with _result := r.1 }
  (self, r.2)

/-- The default constructor `Distributed()`. -/
def Distributed_step1Local.create [Inhabited Parameter] [Inhabited PartialResult] [Inhabited Result]
    (algorithmFPType : FPType) (method : Method) (address : Nat) (h : Heap) :
    Distributed_step1Local Method Parameter PartialResult Result × Heap :=
  Distributed_step1Local.initialize
    (Distributed_step1Local.members algorithmFPType method address) h

/-- The copy constructor `Distributed(const Distributed &other)`. -/
def Distributed_step1Local.copy [Inhabited Parameter] [Inhabited PartialResult] [Inhabited Result]
    (address : Nat) (other : Distributed_step1Local Method Parameter PartialResult Result)
    (h : Heap) : Distributed_step1Local Method Parameter PartialResult Result × Heap :=
  let s := Distributed_step1Local.initialize
    (Distributed_step1Local.members other.algorithmFPType other.method address :
      Distributed_step1Local Method Parameter PartialResult Result) h
  let self := s.1
  let self := { self with input := self.input.set .data (other.input.get .data) }
  let self := { self with
    input := self.input.set .groundTruth (other.input.get .groundTruth) }
  let self := { self with
    input := self.input.setModel .inputModel (other.input.getModel .inputModel) }
  let self := { self with parameter := other.parameter }
  (self, s.2)

/-- The member `setPartialResult(partialResult)`. -/
def Distributed_step1Local.setPartialResult
    (self : Distributed_step1Local Method Parameter PartialResult Result)
    (partialResult : SharedPtr PartialResult) :
    Distributed_step1Local Method Parameter PartialResult Result :=
  let self := { self with _partialResult := partialResult }
  { self with _pres := self._partialResult.get }

/-- The member `getPartialResult()`. -/
def Distributed_step1Local.getPartialResult
    (self : Distributed_step1Local Method Parameter PartialResult Result) :
    SharedPtr PartialResult :=
  self._partialResult

/-- The member `getResult()`. -/
def Distributed_step1Local.getResult
    (self : Distributed_step1Local Method Parameter PartialResult Result) :
    SharedPtr Result :=
  self._result

/-- Adding an error to the error collection of the algorithm. -/
def Distributed_step1Local.addError (error : ErrorID)
    (self : Distributed_step1Local Method Parameter PartialResult Result) :
    Distributed_step1Local Method Parameter PartialResult Result :=
  { self with _errors := self._errors ++ [error] }

/-- The member `setResult(res)`. -/
def Distributed_step1Local.setResult
    (self : Distributed_step1Local Method Parameter PartialResult Result)
    (res : SharedPtr Result) :
    Distributed_step1Local Method Parameter PartialResult Result :=
  DAAL_CHECK res.toBool .ErrorNullResult Distributed_step1Local.addError
    (fun self =>
      let self := { self with _result := res }
      { self with _res := self._result.get })
    self

/-- The member `cloneImpl()`: `new Distributed<step1Local, ...>(*this)`; the
storage of the new object is obtained first, then it is copy-constructed
there. -/
def Distributed_step1Local.cloneImpl
    [Inhabited Parameter] [Inhabited PartialResult] [Inhabited Result]
    (self : Distributed_step1Local Method Parameter PartialResult Result) (h : Heap) :
    RawPtr (Distributed_step1Local Method Parameter PartialResult Result) × Heap :=
  let address := h.next
  let c := Distributed_step1Local.copy address self ⟨h.next + 1⟩
  (some ⟨address, c.1⟩, c.2)

/-- The member `clone()`. -/
def Distributed_step1Local.clone [Inhabited Parameter] [Inhabited PartialResult] [Inhabited Result]
    (self : Distributed_step1Local Method Parameter PartialResult Result) (h : Heap) :
    SharedPtr (Distributed_step1Local Method Parameter PartialResult Result) × Heap :=
  (⟨(self.cloneImpl h).1⟩, (self.cloneImpl h).2)

/-- The member `getMethod()`. -/
def Distributed_step1Local.getMethod
    (self : Distributed_step1Local Method Parameter PartialResult Result) :
    Method :=
  self.method

/-- The member `initializePartialResult()`. -/
def Distributed_step1Local.initializePartialResult
    (self : Distributed_step1Local Method Parameter PartialResult Result) :
    Distributed_step1Local Method Parameter PartialResult Result :=
  { self with _pres := self._partialResult.get }

end

/-- The class template `Distributed<step2Master, algorithmFPType, method>`. -/
structure Distributed_step2Master (Method Parameter DistributedPartialResult Result : Type)
    extends AlgorithmBase Method Result DistributedPartialResult where
  algorithmFPType : FPType
  method : Method
  input : DistributedInput_step2Master
  parameter : Parameter
  _partialResult : SharedPtr DistributedPartialResult

section

variable {Method Parameter DistributedPartialResult Result : Type}

/-- The object before the body of a constructor runs: the base class and the
data members are default-constructed. -/
def Distributed_step2Master.members
    [Inhabited Parameter] (algorithmFPType : FPType) (method : Method)
    (address : Nat) :
    Distributed_step2Master Method Parameter DistributedPartialResult Result :=
  { toAlgorithmBase := AlgorithmBase.create address
    algorithmFPType := algorithmFPType
    method := method
    input := DistributedInput_step2Master.create
    parameter := default
    _partialResult := SharedPtr.null }

/-- The member `Distributed<step2Master>::initialize()`. -/
def Distributed_step2Master.initialize [Inhabited DistributedPartialResult]
    (self : Distributed_step2Master Method Parameter DistributedPartialResult Result)
    (h : Heap) :
    Distributed_step2Master Method Parameter DistributedPartialResult Result × Heap :=
  let c := h.alloc
    ({ mode := .distributed, step := some .step2Master,
       algorithmFPType := self.algorithmFPType, method := self.method } :
      AlgorithmContainer Method)
  let self := { self with _ac := c.1 }
  let self := { self with _in := some ⟨self.address, .input⟩ }
  let self := { self with _par := some ⟨self.address, .parameter⟩ }
  let p := SharedPtr.create c.2 (default : DistributedPartialResult)
  let self := { self with _partialResult := p.1 }
  (self, p.2)

/-- The default constructor `Distributed()`. -/
def Distributed_step2Master.create [Inhabited Parameter] [Inhabited DistributedPartialResult]
    (algorithmFPType : FPType) (method : Method) (address : Nat) (h : Heap) :
    Distributed_step2Master Method Parameter DistributedPartialResult Result × Heap :=
  Distributed_step2Master.initialize
    (Distributed_step2Master.members algorithmFPType method address) h

/-- The copy constructor `Distributed(const Distributed &other)`. -/
def Distributed_step2Master.copy
    [Inhabited Parameter] [Inhabited DistributedPartialResult] (address : Nat)
    (other : Distributed_step2Master Method Parameter DistributedPartialResult Result)
    (h : Heap) :
    Distributed_step2Master Method Parameter DistributedPartialResult Result × Heap :=
  let s := Distributed_step2Master.initialize
    (Distributed_step2Master.members other.algorithmFPType other.method address :
      Distributed_step2Master Method Parameter DistributedPartialResult Result) h
  let self := s.1
  let self := { self with
    input := self.input.set .partialResults (other.input.get .partialResults) }
  let self := { self with parameter := other.parameter }
  (self, s.2)

/-- The member `setPartialResult(partialResult)`. -/
def Distributed_step2Master.setPartialResult
    (self : Distributed_step2Master Method Parameter DistributedPartialResult Result)
    (partialResult : SharedPtr DistributedPartialResult) :
    Distributed_step2Master Method Parameter DistributedPartialResult Result :=
  let self := { self with _partialResult := partialResult }
  { self with _pres := self._partialResult.get }

/-- The member `getPartialResult()`. -/
def Distributed_step2Master.getPartialResult
    (self : Distributed_step2Master Method Parameter DistributedPartialResult Result) :
    SharedPtr DistributedPartialResult :=
  self._partialResult

/-- The member `cloneImpl()`: `new Distributed<step2Master, ...>(*this)`; the
storage of the new object is obtained first, then it is copy-constructed
there. -/
def Distributed_step2Master.cloneImpl [Inhabited Parameter] [Inhabited DistributedPartialResult]
    (self : Distributed_step2Master Method Parameter DistributedPartialResult Result)
    (h : Heap) :
    RawPtr (Distributed_step2Master Method Parameter DistributedPartialResult Result) ×
      Heap :=
  let address := h.next
  let c := Distributed_step2Master.copy address self ⟨h.next + 1⟩
  (some ⟨address, c.1⟩, c.2)

/-- The member `clone()`. -/
def Distributed_step2Master.clone [Inhabited Parameter] [Inhabited DistributedPartialResult]
    (self : Distributed_step2Master Method Parameter DistributedPartialResult Result)
    (h : Heap) :
    SharedPtr (Distributed_step2Master Method Parameter DistributedPartialResult Result) ×
      Heap :=
  (⟨(self.cloneImpl h).1⟩, (self.cloneImpl h).2)

/-- The member `getMethod()`. -/
def Distributed_step2Master.getMethod
    (self : Distributed_step2Master Method Parameter DistributedPartialResult Result) :
    Method :=
  self.method

/-- The member `initializePartialResult()`. -/
def Distributed_step2Master.initializePartialResult
    (self : Distributed_step2Master Method Parameter DistributedPartialResult Result) :
    Distributed_step2Master Method Parameter DistributedPartialResult Result :=
  { self with _pres := self._partialResult.get }

end

/-- Identifiers of the results of neural network training. -/
inductive ResultId
  | model
  deriving DecidableEq, Repr

/-- The slot of a result. -/
def ResultId.toNat : ResultId → Nat
  | .model => 0

/-- Modelled from the spec: the class `training::Result` is not part of the
sources at hand.  It is an `Argument` with one slot per result identifier and
its accessor `get(ResultId)` reads the slot of the identifier. -/
structure Result where
  toArgument : Argument SerializationIface
  deriving DecidableEq, Repr

/-- The accessor `Result::get(ResultId)`. -/
def Result.get (self : Result) (id : ResultId) : ModelPtr :=
  self.toArgument.get id.toNat

/-- The type `training::ResultPtr`. -/
abbrev ResultPtr := SharedPtr Result

/-- Identifiers of the partial results of the second step of distributed
training. -/
inductive Step2MasterPartialResultId
  | resultFromMaster
  deriving DecidableEq, Repr

/-- The slot of a partial result of the second step. -/
def Step2MasterPartialResultId.toNat : Step2MasterPartialResultId → Nat
  | .resultFromMaster => 0

/-- Modelled from the spec: the class `training::DistributedPartialResult` is
not part of the sources at hand.  It is an `Argument` with one slot per
partial result identifier, holding training results, and its accessor
`get(Step2MasterPartialResultId)` reads the slot of the identifier. -/
structure DistributedPartialResult where
  toArgument : Argument Result
  deriving DecidableEq, Repr

/-- The accessor `DistributedPartialResult::get(Step2MasterPartialResultId)`. -/
def DistributedPartialResult.get (self : DistributedPartialResult)
    (id : Step2MasterPartialResultId) : ResultPtr :=
  self.toArgument.get id.toNat

/-- The type `training::DistributedPartialResultPtr`. -/
abbrev DistributedPartialResultPtr := SharedPtr DistributedPartialResult

/-- The call `model->initialize<algorithmFPType>(dataSize, topology, parameter)`
of the member `training::Model::initialize`, which is not part of the sources
at hand: the model object it is called on and the arguments it receives. -/
structure ModelInitializeCall (Topology : Type) where
  model : Obj SerializationIface
  algorithmFPType : FPType
  dataSize : List Nat
  topology : Topology
  parameter : Option MemberPtr
  deriving DecidableEq, Repr

section

variable {Method Parameter : Type}

/-- The member `Distributed<step2Master>::getResult()`:
`_partialResult->get(resultFromMaster)`.  The result is `none` when
`_partialResult` is null, where the code dereferences a null pointer. -/
def Distributed_step2Master.getResult
    (self : Distributed_step2Master Method Parameter DistributedPartialResult Result) :
    Option ResultPtr :=
  match self._partialResult.get with
  | none => none
  | some pres => some (pres.val.get .resultFromMaster)

/-- The member `Distributed<step2Master>::allocateResult()`, whose body is
empty. -/
def Distributed_step2Master.allocateResult
    (self : Distributed_step2Master Method Parameter DistributedPartialResult Result) :
    Distributed_step2Master Method Parameter DistributedPartialResult Result :=
  self

/-- The member `Distributed<step2Master>::initialize(dataSize, topology)`.  It
assigns no member of the algorithm; its effect is the call of
`Model::initialize` on the model of the result, which is returned next to the
algorithm.  The result is `none` when the code dereferences a null pointer:
`_partialResult`, the result it holds or the model of that result is null. -/
def Distributed_step2Master.initializeTopology {Topology : Type}
    (self : Distributed_step2Master Method Parameter DistributedPartialResult Result)
    (dataSize : List Nat) (topology : Topology) :
    Option (Distributed_step2Master Method Parameter DistributedPartialResult Result ×
      ModelInitializeCall Topology) :=
  match Distributed_step2Master.getResult self with
  | none => none
  | some result =>
    match result.get with
    | none => none
    | some res =>
      match (res.val.get .model).get with
      | none => none
      | some m =>
        some (self,
          { model := m
            algorithmFPType := self.algorithmFPType
            dataSize := dataSize
            topology := topology
            parameter := some ⟨self.address, .parameter⟩ })

end

/-- A model at address 48, the result at address 40 that holds it under
`model`, and the partial result at address 24 that holds this result under
`resultFromMaster`. -/
def sampleModel : Obj SerializationIface := ⟨48, .model 0⟩

/-- See `sampleModel`. -/
def sampleResult : Obj Result := ⟨40, ⟨⟨[⟨some sampleModel⟩]⟩⟩⟩

/-- See `sampleModel`. -/
def samplePartialResult : Obj DistributedPartialResult :=
  ⟨24, ⟨⟨[⟨some sampleResult⟩]⟩⟩⟩

/-- The accessor `Input::get(InputCollectionId)`. -/
def Input.getCollection (self : Input) (id : InputCollectionId) : KeyValueDataCollectionPtr :=
  self.toArgument.get id.toNat

/-- The instance `internal::TrainingKernelBatch<algorithmFPType, method, cpu>`
of the kernel class template: the template arguments it is instantiated
with. -/
structure TrainingKernelBatch (Method CpuType : Type) where
  algorithmFPType : FPType
  method : Method
  cpu : CpuType
  deriving DecidableEq, Repr

/-- An argument handed to a member of the kernel. -/
inductive KernelArgument (Parameter : Type)
  | tensor (p : RawPtr SerializationIface)
  | model (p : RawPtr SerializationIface)
  | collection (p : KeyValueDataCollectionPtr)
  | parameter (p : RawPtr Parameter)
  deriving DecidableEq, Repr

/-- A call of a member of a kernel: the class the kernel pointer is taken
for, the kernel object, the name of the member and the arguments. -/
structure KernelCall (Method CpuType Parameter : Type) where
  kernelClass : TrainingKernelBatch Method CpuType
  kernel : RawPtr (TrainingKernelBatch Method CpuType)
  member : String
  arguments : List (KernelArgument Parameter)
  deriving DecidableEq, Repr

/-- Modelled from the spec: the macro `__DAAL_INITIALIZE_KERNELS(KernelClass,
algorithmFPType, method)` is not part of the sources at hand.  A batch
container "binds one algorithm invocation to one kernel implementation": in
the container instantiated for `cpu` the macro creates the one kernel
`KernelClass<algorithmFPType, method, cpu>` the container keeps in `_kernel`. -/
def DAAL_INITIALIZE_KERNELS {Method CpuType : Type} (algorithmFPType : FPType)
    (method : Method) (cpu : CpuType) (h : Heap) :
    RawPtr (TrainingKernelBatch Method CpuType) × Heap :=
  h.alloc ⟨algorithmFPType, method, cpu⟩

/-- Modelled from the spec: the macro `__DAAL_CALL_KERNEL(env, KernelClass,
__DAAL_KERNEL_ARGUMENTS(algorithmFPType, method), member, arguments...)` is
not part of the sources at hand.  In the container instantiated for `cpu` it
calls the member on the kernel `_kernel` of the container, taken for a
`KernelClass<algorithmFPType, method, cpu>`, with the arguments in the order
given.  Its first argument is the reference `env` the caller bound to `*_env`,
given here by the pointer `_env` it was bound from; the call does not read
the environment, so it is made whether or not `_env` is null. -/
def DAAL_CALL_KERNEL {Method CpuType Env Parameter : Type} (_env : RawPtr Env)
    (algorithmFPType : FPType) (method : Method) (cpu : CpuType)
    (_kernel : RawPtr (TrainingKernelBatch Method CpuType)) (member : String)
    (arguments : List (KernelArgument Parameter)) : KernelCall Method CpuType Parameter :=
  { kernelClass := ⟨algorithmFPType, method, cpu⟩
    kernel := _kernel
    member := member
    arguments := arguments }

/-- The class template `BatchContainer<algorithmFPType, method, cpu>` of
neural network training: its template arguments, the pointers it inherits
from the container interface (the environment and the input, result and
parameter of the algorithm) and its kernel. -/
structure BatchContainer (Method CpuType Env Parameter : Type) where
  algorithmFPType : FPType
  method : Method
  cpu : CpuType
  _env : RawPtr Env
  _in : RawPtr Input
  _res : RawPtr Result
  _par : RawPtr Parameter
  _kernel : RawPtr (TrainingKernelBatch Method CpuType)
  deriving DecidableEq, Repr

section

variable {Method CpuType Env Parameter : Type}

/-- The constructor `BatchContainer(daalEnv)`: the base class is
default-constructed and the kernel is created. -/
def BatchContainer.create (algorithmFPType : FPType) (method : Method) (cpu : CpuType)
    (_daalEnv : RawPtr Env) (h : Heap) : BatchContainer Method CpuType Env Parameter × Heap :=
  let k := DAAL_INITIALIZE_KERNELS algorithmFPType method cpu h
  ({ algorithmFPType := algorithmFPType, method := method, cpu := cpu, _env := none,
     _in := none, _res := none, _par := none, _kernel := k.1 }, k.2)

/-- Modelled from the spec: the member `setArguments(in, res, par)` of the
container interface is not part of the sources at hand.  A container "binds
an Algorithm instance to a concrete numeric kernel": before a computation the
algorithm hands its input, its result and its parameter to the container,
which keeps the three pointers. -/
def BatchContainer.setArguments (self : BatchContainer Method CpuType Env Parameter)
    (_in : RawPtr Input) (_res : RawPtr Result) (_par : RawPtr Parameter) :
    BatchContainer Method CpuType Env Parameter :=
  { self with _in := _in, _res := _res, _par := _par }

/-- The member `BatchContainer::compute()`: the call of the kernel it makes.
The reference `env` is bound to `*_env` and only handed to the macro.  The
result is `none` when the code reads through a null pointer (`_in` or `_res`
is null). -/
def BatchContainer.compute (self : BatchContainer Method CpuType Env Parameter) :
    Option (KernelCall Method CpuType Parameter) :=
  match self._in, self._res with
  | some input, some result =>
    let env := self._env
    let data := (input.val.get .data).get
    let nnModel := (result.val.get .model).get
    let groundTruthCollectionPtr := input.val.getCollection .groundTruthCollection
    some (DAAL_CALL_KERNEL env self.algorithmFPType self.method self.cpu self._kernel
      "compute" [.tensor data, .model nnModel, .collection groundTruthCollectionPtr])
  | _, _ => none

/-- The member `BatchContainer::setupCompute()`: the call of the kernel it
makes.  The reference `env` is bound to `*_env` and only handed to the macro.
The result is `none` when the code reads through a null pointer (`_in` or
`_res` is null). -/
def BatchContainer.setupCompute (self : BatchContainer Method CpuType Env Parameter) :
    Option (KernelCall Method CpuType Parameter) :=
  match self._in, self._res with
  | some input, some result =>
    let parameter := self._par
    let env := self._env
    let data := (input.val.get .data).get
    let nnModel := (result.val.get .model).get
    let groundTruthCollectionPtr := input.val.getCollection .groundTruthCollection
    some (DAAL_CALL_KERNEL env self.algorithmFPType self.method self.cpu self._kernel
      "initialize"
      [.tensor data, .model nnModel, .collection groundTruthCollectionPtr,
        .parameter parameter])
  | _, _ => none

/-- The member `BatchContainer::resetCompute()`: the call of the kernel it
makes.  The reference `env` is bound to `*_env` and only handed to the macro;
no pointer is read through, so the call is made in every state. -/
def BatchContainer.resetCompute (self : BatchContainer Method CpuType Env Parameter) :
    KernelCall Method CpuType Parameter :=
  let env := self._env
  DAAL_CALL_KERNEL env self.algorithmFPType self.method self.cpu self._kernel "reset" []

end

/-- An input at address 8 whose `data` tensor is at address 9, whose ground
truth collection is at address 10 and whose other slots are empty. -/
def sampleTrainingInput : Obj Input :=
  ⟨8, ⟨⟨[⟨some ⟨9, .tensor [4, 2]⟩⟩, SharedPtr.null,
    ⟨some ⟨10, .keyValueDataCollection [0]⟩⟩]⟩⟩⟩

end neural_networks.training

namespace neural_networks.initializers.truncated_gaussian

/-- The enumeration `truncated_gaussian::Method`. -/
inductive Method
  | defaultDense
  deriving DecidableEq, Repr

/-- The integer value of a method. -/
def Method.toNat : Method → Nat
  | .defaultDense => 0

/-- The data members of the class template `Parameter<algorithmFPType>`; the
type `double` and the type `algorithmFPType` are type parameters. -/
structure Parameter (Double FPValue : Type) where
  mean : Double
  sigma : Double
  a : FPValue
  b : FPValue
  seed : Nat
  deriving DecidableEq, Repr

/-- The forms of the constructor call the declaration
`Parameter(double _mean = 0, double _sigma = 1.0, size_t _seed = 777)` admits:
none, one, two or three arguments. -/
inductive ParameterArguments (Double : Type)
  | none
  | mean (_mean : Double)
  | meanSigma (_mean _sigma : Double)
  | meanSigmaSeed (_mean _sigma : Double) (_seed : Nat)
  deriving DecidableEq, Repr

/-- The constructor call `Parameter(...)`: the arguments left out are filled
with the defaults of the declaration, then the body of the constructor, which
is not part of the sources at hand and is taken as the parameter `body`,
runs on the three arguments. -/
def Parameter.create {Double FPValue : Type} [OfNat Double 0] [OfScientific Double]
    (body : Double → Double → Nat → Parameter Double FPValue) :
    ParameterArguments Double → Parameter Double FPValue
  | .none => body 0 1.0 777
  | .mean _mean => body _mean 1.0 777
  | .meanSigma _mean _sigma => body _mean _sigma 777
  | .meanSigmaSeed _mean _sigma _seed => body _mean _sigma _seed

end neural_networks.initializers.truncated_gaussian

namespace neural_networks.layers.split.backward

/-- The class `split::backward::Result`: it declares no data member, so it
holds what its base class `daal::algorithms::Result` holds. -/
structure Result (BaseResult : Type) where
  toResult : BaseResult
  deriving DecidableEq, Repr

section

variable {BaseResult Archive InputDataArchive OutputDataArchive : Type}

/-- The member `Result::getSerializationTag()`; the constant
`SERIALIZATION_NEURAL_NETWORKS_LAYERS_SPLIT_BACKWARD_RESULT_ID`, which is not
defined in the sources at hand, is a parameter. -/
def Result.getSerializationTag
    (SERIALIZATION_NEURAL_NETWORKS_LAYERS_SPLIT_BACKWARD_RESULT_ID : Int)
    (_self : Result BaseResult) : Int :=
  SERIALIZATION_NEURAL_NETWORKS_LAYERS_SPLIT_BACKWARD_RESULT_ID

/-- The member template `Result::serialImpl<Archive, onDeserialize>(arch)`;
the member `daal::algorithms::Result::serialImpl<Archive, onDeserialize>` of
the base class, which is not part of the sources at hand, is the parameter
`baseSerialImpl`: from the object and the archive it gives the object and the
archive after the call. -/
def Result.serialImpl (baseSerialImpl : BaseResult → Archive → BaseResult × Archive)
    (self : Result BaseResult) (arch : Archive) : Result BaseResult × Archive :=
  (⟨(baseSerialImpl self.toResult arch).1⟩, (baseSerialImpl self.toResult arch).2)

/-- The member `Result::serializeImpl(arch)`:
`serialImpl<InputDataArchive, false>(arch)`. -/
def Result.serializeImpl
    (baseSerialize : BaseResult → InputDataArchive → BaseResult × InputDataArchive)
    (self : Result BaseResult) (arch : InputDataArchive) :
    Result BaseResult × InputDataArchive :=
  Result.serialImpl baseSerialize self arch

/-- The member `Result::deserializeImpl(arch)`:
`serialImpl<OutputDataArchive, true>(arch)`. -/
def Result.deserializeImpl
    (baseDeserialize : BaseResult → OutputDataArchive → BaseResult × OutputDataArchive)
    (self : Result BaseResult) (arch : OutputDataArchive) :
    Result BaseResult × OutputDataArchive :=
  Result.serialImpl baseDeserialize self arch

end

end neural_networks.layers.split.backward

namespace normalization.minmax

/-- The type `LowOrderMomentsPtr`: a pointer to a low order moments
algorithm. -/
abbrev LowOrderMomentsPtr (MomentsMethod MomentsParameter MomentsResult : Type) :=
  SharedPtr (low_order_moments.Batch MomentsMethod MomentsParameter MomentsResult)

/-- The class template `Parameter<algorithmFPType>`, derived from
`ParameterBase`, whose declaration is not part of the sources at hand and is
a type parameter. -/
structure Parameter (ParameterBase : Type) where
  algorithmFPType : FPType
  toParameterBase : ParameterBase
  deriving DecidableEq, Repr

section

variable {Double MomentsMethod MomentsParameter MomentsResult ParameterBase : Type}

/-- The constructor `Parameter(lowerBound, upperBound, moments)`; the
constructor `ParameterBase(lowerBound, upperBound, moments)` of the base
class, which is not part of the sources at hand, is the parameter
`parameterBase`. -/
def Parameter.createWithMoments
    (parameterBase : Double → Double →
      LowOrderMomentsPtr MomentsMethod MomentsParameter MomentsResult → ParameterBase)
    (algorithmFPType : FPType) (lowerBound upperBound : Double)
    (moments : LowOrderMomentsPtr MomentsMethod MomentsParameter MomentsResult) :
    Parameter ParameterBase :=
  ⟨algorithmFPType, parameterBase lowerBound upperBound moments⟩

/-- The constructor `Parameter(lowerBound, upperBound)`: the base class is
built from the bounds and `LowOrderMomentsPtr(new
low_order_moments::Batch<algorithmFPType>())`.  The second template argument
of `Batch` is its default, `defaultDense`, an enumerator that is not defined
in the sources at hand and is a parameter. -/
def Parameter.create [Inhabited MomentsParameter] [Inhabited MomentsResult]
    (parameterBase : Double → Double →
      LowOrderMomentsPtr MomentsMethod MomentsParameter MomentsResult → ParameterBase)
    (defaultDense : MomentsMethod) (algorithmFPType : FPType)
    (lowerBound upperBound : Double) (h : Heap) : Parameter ParameterBase × Heap :=
  let address := h.next
  let b := low_order_moments.Batch.create algorithmFPType defaultDense address
    ⟨h.next + 1⟩
  (⟨algorithmFPType, parameterBase lowerBound upperBound ⟨some ⟨address, b.1⟩⟩⟩, b.2)

/-- A newly default-constructed low order moments algorithm
`low_order_moments::Batch<algorithmFPType>`, built at a fresh address, and the
pointer to it. -/
def defaultMoments [Inhabited MomentsParameter] [Inhabited MomentsResult]
    (defaultDense : MomentsMethod) (algorithmFPType : FPType) (h : Heap) :
    LowOrderMomentsPtr MomentsMethod MomentsParameter MomentsResult × Heap :=
  let b : low_order_moments.Batch MomentsMethod MomentsParameter MomentsResult × Heap :=
    low_order_moments.Batch.create algorithmFPType defaultDense h.next ⟨h.next + 1⟩
  (⟨some ⟨h.next, b.1⟩⟩, b.2)

/-- What the two-argument constructor is said to build: the parameter the
three-argument constructor builds from the same bounds and the pointer to a
newly default-constructed low order moments algorithm of the parameter's own
floating-point type. -/
def Parameter.create_spec [Inhabited MomentsParameter] [Inhabited MomentsResult]
    (parameterBase : Double → Double →
      LowOrderMomentsPtr MomentsMethod MomentsParameter MomentsResult → ParameterBase)
    (defaultDense : MomentsMethod) (algorithmFPType : FPType)
    (lowerBound upperBound : Double) (h : Heap) : Parameter ParameterBase × Heap :=
  let moments : LowOrderMomentsPtr MomentsMethod MomentsParameter MomentsResult × Heap :=
    defaultMoments defaultDense algorithmFPType h
  (Parameter.createWithMoments parameterBase algorithmFPType lowerBound upperBound
    moments.1, moments.2)

end

end normalization.minmax

namespace cosine_distance

/-- The enumeration `cosine_distance::Method`. -/
inductive Method
  | defaultDense
  deriving DecidableEq, Repr

end cosine_distance

/-- An instance `ContainerTemplate<algorithmFPType, method, cpu>` of a
container class template: the template and its arguments. -/
structure ContainerInstance (Method CpuType : Type) where
  containerTemplate : String
  algorithmFPType : FPType
  method : Method
  cpu : CpuType
  deriving DecidableEq, Repr

/-- The class `AlgorithmDispatchContainer<mode, ...>`: the container `_cntr`
it runs. -/
structure AlgorithmDispatchContainer (Method CpuType : Type) where
  mode : ComputeMode
  _cntr : RawPtr (ContainerInstance Method CpuType)
  deriving DecidableEq, Repr

/-- Modelled from the spec: the macro
`__DAAL_INSTANTIATE_DISPATCH_CONTAINER(ContainerTemplate, mode,
algorithmFPType, method)` is not part of the sources at hand.  It defines the
constructor of the dispatch container, which "selects kernel variant at
compile/runtime based on CPU features and precision": for the CPU variant
`cpuid` found in the environment it creates the container "selected by
(precision, method, CPU variant)", `ContainerTemplate<algorithmFPType, method,
cpuid>`, and keeps it in `_cntr`. -/
def DAAL_INSTANTIATE_DISPATCH_CONTAINER {Method CpuType : Type} (containerTemplate : String)
    (mode : ComputeMode) (algorithmFPType : FPType) (method : Method) (cpuid : CpuType)
    (h : Heap) : AlgorithmDispatchContainer Method CpuType × Heap :=
  let c := h.alloc
    ({ containerTemplate := containerTemplate, algorithmFPType := algorithmFPType,
       method := method, cpu := cpuid } : ContainerInstance Method CpuType)
  ({ mode := mode, _cntr := c.1 }, c.2)

namespace cosine_distance

/-- The instantiation of `cosdistance_dense_default_batch_fpt_dispatcher.cpp`:
`__DAAL_INSTANTIATE_DISPATCH_CONTAINER(cosine_distance::BatchContainer, batch,
DAAL_FPTYPE, cosine_distance::defaultDense)`; the precision `DAAL_FPTYPE` the
file is compiled for is a parameter. -/
def dispatchContainer {CpuType : Type} (DAAL_FPTYPE : FPType) (cpuid : CpuType) (h : Heap) :
    AlgorithmDispatchContainer Method CpuType × Heap :=
  DAAL_INSTANTIATE_DISPATCH_CONTAINER "cosine_distance::BatchContainer" .batch DAAL_FPTYPE
    Method.defaultDense cpuid h

end cosine_distance

end algorithms

end daal

/-! ## Theorems -/

namespace daal

open services data_management algorithms

section Argument

variable {α : Type}

theorem Argument.size_create (n : Nat) : (Argument.create n : Argument α).size = n := by
  simp [Argument.create, Argument.size]

theorem Argument.size_set (a : Argument α) (i : Nat) (v : SharedPtr α) :
    (a.set i v).size = a.size := by
  simp [Argument.set, Argument.size]

theorem Argument.get_set_self (a : Argument α) (i : Nat) (v : SharedPtr α)
    (h : i < a.size) : (a.set i v).get i = v := by
  simp only [Argument.size] at h
  simp [Argument.set, Argument.get, List.getD_eq_getElem?_getD, List.getElem?_set, h]

theorem Argument.get_set_other (a : Argument α) (i j : Nat) (v : SharedPtr α)
    (h : i ≠ j) : (a.set i v).get j = a.get j := by
  simp [Argument.set, Argument.get, List.getD_eq_getElem?_getD, List.getElem?_set, h]

end Argument

namespace algorithms.low_order_moments

section

variable {Method Parameter Result : Type}

/-- C1. Calling `setResult` with a null result pointer reports
`ErrorNullResult` (the error is appended to the error collection of the
algorithm) and leaves the stored result unchanged: `getResult()` returns the
same pointer as before the call, and the raw result pointer `_res` registered
for the container is not modified. -/
theorem setResult_null (A : BatchIface Method Parameter Result) :
    (A.setResult SharedPtr.null)._errors = A._errors ++ [ErrorID.ErrorNullResult] ∧
    (A.setResult SharedPtr.null).getResult = A.getResult ∧
    (A.setResult SharedPtr.null)._res = A._res := by
  refine ⟨rfl, rfl, rfl⟩

/-- C2. For every non-null result pointer `r`, after `setResult(r)` the call
`getResult()` returns `r`, and the raw result pointer `_res` handed to the
container equals `r.get()`; no error is reported. -/
theorem getResult_setResult (A : BatchIface Method Parameter Result)
    (r : SharedPtr Result) (hr : r.toBool = true) :
    (A.setResult r).getResult = r ∧ (A.setResult r)._res = r.get ∧
    (A.setResult r)._errors = A._errors := by
  simp [BatchIface.setResult, DAAL_CHECK, hr, BatchIface.getResult]

theorem Input.get_set_create (v : NumericTablePtr) (id : InputId) :
    (Input.create.set id v).get id = v := by
  cases id
  exact Argument.get_set_self _ _ _ (by simp [Input.create, Argument.size_create])

theorem BatchIface.copy_parameter [Inhabited Parameter] [Inhabited Result] (address : Nat)
    (other : BatchIface Method Parameter Result) (h : Heap) :
    (BatchIface.copy address other h).1.parameter = other.parameter := rfl

theorem BatchIface.copy_input [Inhabited Parameter] [Inhabited Result] (address : Nat)
    (other : BatchIface Method Parameter Result) (h : Heap) :
    (BatchIface.copy address other h).1.input.get .data = other.input.get .data :=
  Input.get_set_create _ _

/-- C3. For every algorithm `A` of type `Batch<algorithmFPType, method>` the
algorithm built by the copy constructor from `A` (at any address), and so the
one `A.clone()` returns (a non-null pointer to the copy built at a fresh
address), has a parameter equal to `A.parameter` and, for the id `data`, the
same input object as `A.input.get(data)`. -/
theorem clone_keeps_parameter_and_data [Inhabited Parameter] [Inhabited Result]
    (A : Batch Method Parameter Result) (h : Heap) :
    (∀ address : Nat,
      (Batch.copy address A h).1.parameter = A.parameter ∧
      (Batch.copy address A h).1.input.get .data = A.input.get .data) ∧
    ∃ o : Obj (Batch Method Parameter Result),
      (A.clone h).1.get = some o ∧
      o.val = (Batch.copy h.next A ⟨h.next + 1⟩).1 ∧
      o.val.parameter = A.parameter ∧
      o.val.input.get .data = A.input.get .data := by
  have key : ∀ (address : Nat) (g : Heap),
      (Batch.copy address A g).1.parameter = A.parameter ∧
      (Batch.copy address A g).1.input.get .data = A.input.get .data := by
    intro address g
    exact ⟨BatchIface.copy_parameter address A.toBatchIface g,
      BatchIface.copy_input address A.toBatchIface g⟩
  refine ⟨fun address => key address h, ⟨h.next, (Batch.copy h.next A ⟨h.next + 1⟩).1⟩,
    rfl, rfl, ?_, ?_⟩
  · exact (key h.next ⟨h.next + 1⟩).1
  · exact (key h.next ⟨h.next + 1⟩).2

end

/-- C2, at a concrete input: a default-constructed algorithm (built at address
0 on a heap whose next free address is 1) and the non-null result pointer to
an object at address 7. -/
theorem getResult_setResult_witness :
    (⟨some ⟨7, 3⟩⟩ : SharedPtr Nat).toBool = true ∧
    (((BatchIface.create 0 ⟨1⟩ : BatchIface Nat Nat Nat × Heap).1.setResult
        ⟨some ⟨7, 3⟩⟩).getResult = ⟨some ⟨7, 3⟩⟩ ∧
      ((BatchIface.create 0 ⟨1⟩ : BatchIface Nat Nat Nat × Heap).1.setResult
        ⟨some ⟨7, 3⟩⟩)._res = (⟨some ⟨7, 3⟩⟩ : SharedPtr Nat).get ∧
      ((BatchIface.create 0 ⟨1⟩ : BatchIface Nat Nat Nat × Heap).1.setResult
        ⟨some ⟨7, 3⟩⟩)._errors =
        (BatchIface.create 0 ⟨1⟩ : BatchIface Nat Nat Nat × Heap).1._errors) :=
  ⟨rfl, getResult_setResult _ _ rfl⟩

end algorithms.low_order_moments

namespace algorithms.decision_forest.regression.prediction

theorem Result.get_set (self : Result) (id : ResultId) (value : NumericTablePtr) :
    (self.set id value).get id = value := by
  cases id
  exact Argument.get_set_self _ _ _ (by rw [self.slots]; exact Nat.lt_succ_self _)

theorem createBounded_honoursRequest (available address : Nat) :
    HonoursRequest (createBounded available address) := by
  intro fp nColumns nRows flag st o ho
  simp only [createBounded, SharedPtr.get] at ho
  split at ho
  · simp only [Option.some.injEq] at ho
    rw [← ho]
  · simp [SharedPtr.null] at ho

/-- C4, as stated, fails: on a machine with 8 bytes of memory left, for the
input whose `data` table has 3 rows, `allocate<double>` returns a failing
status and sets the `prediction` entry to the empty pointer, not to a table
with 1 column and 3 rows. -/
theorem allocate_prediction_null_when_creation_fails :
    ∃ (r : Result) (st : Status),
      Result.allocate (createBounded 8 64) .double Result.create (some sampleInput)
        (none : RawPtr Unit) 0 = some (r, st) ∧
      (r.get .prediction).get = none ∧ st.ok = false :=
  ⟨_, _, rfl, rfl, rfl⟩

/-- C4, amended. For every input whose `data` table has `n` rows, whatever the
values of `par` and `method` are, `allocate` asks the table factory for a
homogeneous table of type `algorithmFPType` with 1 column and `n` rows with
allocated memory, and sets the `prediction` entry of the result to the
pointer the factory returns.  So the `prediction` entry is a homogeneous
table with exactly 1 column and exactly `n` rows whenever the creation of the
table succeeds (the factory, honouring the request, returns a table), and it
is the empty pointer whenever the factory returns none. -/
theorem allocate_prediction {Parameter : Type} (create : HomogenNumericTableCreate)
    (algorithmFPType : FPType) (self : Result) (inp : Obj Input) (address : Nat)
    (t : NumericTable) (par : RawPtr Parameter) (method : Int)
    (hdata : (inp.val.get .data).get = some ⟨address, .numericTable t⟩) :
    ∃ (r : Result) (st : Status),
      Result.allocate create algorithmFPType self (some inp) par method = some (r, st) ∧
      r.get .prediction =
        (create algorithmFPType 1 t.nRows .doAllocate Status.create).1 ∧
      (HonoursRequest create → ∀ o : Obj SerializationIface,
        (create algorithmFPType 1 t.nRows .doAllocate Status.create).1.get = some o →
        (r.get .prediction).get = some o ∧
        o.val = .numericTable ⟨1, t.nRows, some algorithmFPType⟩) ∧
      ((create algorithmFPType 1 t.nRows .doAllocate Status.create).1.get = none →
        (r.get .prediction).get = none) := by
  refine ⟨self.set .prediction
      (create algorithmFPType 1 t.nRows .doAllocate Status.create).1,
    (create algorithmFPType 1 t.nRows .doAllocate Status.create).2, ?_, ?_, ?_, ?_⟩
  · simp only [Result.allocate, hdata, NumericTable.getNumberOfRows]
  · exact Result.get_set _ _ _
  · intro hc o ho
    rw [Result.get_set]
    exact ⟨ho, hc _ _ _ _ _ o ho⟩
  · intro hn
    rw [Result.get_set]
    exact hn

/-- C4 amended, at a concrete input: with 64 bytes of memory left, the input
whose `data` table has 3 rows gets a `prediction` table of type double with 1
column and 3 rows. -/
theorem allocate_prediction_witness :
    (sampleInput.val.get .data).get = some ⟨32, .numericTable ⟨5, 3, some .double⟩⟩ ∧
    ∃ (r : Result) (st : Status),
      Result.allocate (createBounded 64 64) .double Result.create (some sampleInput)
        (none : RawPtr Unit) 0 = some (r, st) ∧
      (r.get .prediction).get = some ⟨64, .numericTable ⟨1, 3, some .double⟩⟩ := by
  refine ⟨rfl, ?_⟩
  obtain ⟨r, st, h1, h2, _, _⟩ :=
    allocate_prediction (createBounded 64 64) .double Result.create sampleInput 32
      ⟨5, 3, some .double⟩ (none : RawPtr Unit) 0 rfl
  exact ⟨r, st, h1, by rw [h2]; rfl⟩

/-- C5. `allocate` returns exactly the status produced by the creation of the
prediction table, that is the status the table factory leaves behind when it
is called on a fresh status: an OK status when the creation succeeds and a
failing status whenever the creation reports a failure. -/
theorem allocate_status {Parameter : Type} (create : HomogenNumericTableCreate)
    (algorithmFPType : FPType) (self : Result) (inp : Obj Input) (address : Nat)
    (t : NumericTable) (par : RawPtr Parameter) (method : Int)
    (hdata : (inp.val.get .data).get = some ⟨address, .numericTable t⟩) :
    ∃ (r : Result) (st : Status),
      Result.allocate create algorithmFPType self (some inp) par method = some (r, st) ∧
      st = (create algorithmFPType 1 t.nRows .doAllocate Status.create).2 ∧
      (st.ok = true ↔
        (create algorithmFPType 1 t.nRows .doAllocate Status.create).2.ok = true) ∧
      (st.ok = false ↔
        (create algorithmFPType 1 t.nRows .doAllocate Status.create).2.ok = false) := by
  refine ⟨self.set .prediction
      (create algorithmFPType 1 t.nRows .doAllocate Status.create).1,
    (create algorithmFPType 1 t.nRows .doAllocate Status.create).2, ?_, rfl, Iff.rfl,
    Iff.rfl⟩
  simp only [Result.allocate, hdata, NumericTable.getNumberOfRows]

/-- C5, at a concrete input: with 8 bytes of memory left the creation of a
table of 3 doubles fails, and `allocate` returns the failing status holding
`ErrorMemoryAllocationFailed`. -/
theorem allocate_status_witness :
    (sampleInput.val.get .data).get = some ⟨32, .numericTable ⟨5, 3, some .double⟩⟩ ∧
    ∃ (r : Result),
      Result.allocate (createBounded 8 64) .double Result.create (some sampleInput)
        (none : RawPtr Unit) 0 = some (r, ⟨[.ErrorMemoryAllocationFailed]⟩) := by
  refine ⟨rfl, ?_⟩
  obtain ⟨r, st, h1, h2, _, _⟩ :=
    allocate_status (createBounded 8 64) .double Result.create sampleInput 32
      ⟨5, 3, some .double⟩ (none : RawPtr Unit) 0 rfl
  exact ⟨r, by rw [h1, h2]; rfl⟩

end algorithms.decision_forest.regression.prediction

namespace algorithms.gbt.regression

section

variable {GbtModel : Type}

theorem Model.cast_toBase (m : ModelPtr GbtModel) : Model.cast m.toBase = m := by
  obtain ⟨_ | o⟩ := m <;> rfl

namespace training

variable {lastResultId : Nat}

/-- C6. For every `gbt::regression::training::Result`, every result id and
every gradient boosted trees regression model pointer `m` (the empty pointer
included), after `set(id, m)` the call `get(id)` returns `m`: the value stored
in the base regression training `Result` under the same id is cast back to
the same model. -/
theorem get_set_model (r : Result GbtModel lastResultId) (id : ResultId lastResultId)
    (m : ModelPtr GbtModel) :
    (r.set id m).get id = m ∧
    (r.set id m).toBase.get id.toBase = m.toBase := by
  have hb : (r.set id m).toBase.get id.toBase = m.toBase :=
    Argument.get_set_self _ _ _ (by
      show id.val < r.toBase.toArgument.size
      rw [r.slots]
      exact id.isLt)
  refine ⟨?_, hb⟩
  show Model.cast ((r.set id m).toBase.get id.toBase) = m
  rw [hb, Model.cast_toBase]

/-- C7. For every input, parameter and method, `Result::check` returns
exactly the status returned by the base `regression::training::Result::check`
on the same arguments (applied to the base class part of the same object): it
fails if and only if the base check fails. -/
theorem check_eq_base_check {Input Parameter : Type}
    (baseCheck : BaseCheck GbtModel Input Parameter) (r : Result GbtModel lastResultId)
    (input : RawPtr Input) (par : RawPtr Parameter) (method : Int) :
    r.check baseCheck input par method = baseCheck r.toBase input par method ∧
    ((r.check baseCheck input par method).ok = false ↔
      (baseCheck r.toBase input par method).ok = false) :=
  ⟨rfl, Iff.rfl⟩

end training

end

end algorithms.gbt.regression

namespace algorithms.neural_networks.training

section

variable {Method Parameter PartialResult Result : Type}

/-- C8. For every algorithm `Distributed<step1Local, ...>`, calling
`setResult` with a null result pointer reports `ErrorNullResult` (the error is
appended to the error collection of the algorithm) and leaves the stored
result unchanged: `getResult()` returns the same pointer as before.  For every
non-null `res`, after `setResult(res)` the call `getResult()` returns `res`. -/
theorem step1Local_setResult
    (A : Distributed_step1Local Method Parameter PartialResult Result) :
    ((A.setResult SharedPtr.null)._errors = A._errors ++ [ErrorID.ErrorNullResult] ∧
      (A.setResult SharedPtr.null).getResult = A.getResult ∧
      (A.setResult SharedPtr.null)._res = A._res) ∧
    ∀ res : SharedPtr Result, res.toBool = true →
      (A.setResult res).getResult = res ∧ (A.setResult res)._res = res.get ∧
      (A.setResult res)._errors = A._errors := by
  refine ⟨⟨rfl, rfl, rfl⟩, ?_⟩
  intro res hres
  simp [Distributed_step1Local.setResult, DAAL_CHECK, hres,
    Distributed_step1Local.getResult]

theorem step1Local_copy_fields [Inhabited Parameter] [Inhabited PartialResult]
    [Inhabited Result] (address : Nat)
    (A : Distributed_step1Local Method Parameter PartialResult Result) (h : Heap) :
    (Distributed_step1Local.copy address A h).1.input.get .data = A.input.get .data ∧
    (Distributed_step1Local.copy address A h).1.input.get .groundTruth =
      A.input.get .groundTruth ∧
    (Distributed_step1Local.copy address A h).1.input.getModel .inputModel =
      A.input.getModel .inputModel ∧
    (Distributed_step1Local.copy address A h).1.parameter = A.parameter :=
  ⟨rfl, rfl, rfl, rfl⟩

/-- C9. For every algorithm `A` of type `Distributed<step1Local, ...>` the
algorithm built by the copy constructor from `A` (at any address), and so the
one `A.clone()` returns (a non-null pointer to the copy built at a fresh
address), has the same input objects as `A` for the ids `data`, `groundTruth`
and `inputModel`, and a parameter equal to `A.parameter`. -/
theorem step1Local_clone_keeps_inputs_and_parameter [Inhabited Parameter]
    [Inhabited PartialResult] [Inhabited Result]
    (A : Distributed_step1Local Method Parameter PartialResult Result) (h : Heap) :
    (∀ address : Nat,
      (Distributed_step1Local.copy address A h).1.input.get .data = A.input.get .data ∧
      (Distributed_step1Local.copy address A h).1.input.get .groundTruth =
        A.input.get .groundTruth ∧
      (Distributed_step1Local.copy address A h).1.input.getModel .inputModel =
        A.input.getModel .inputModel ∧
      (Distributed_step1Local.copy address A h).1.parameter = A.parameter) ∧
    ∃ o : Obj (Distributed_step1Local Method Parameter PartialResult Result),
      (A.clone h).1.get = some o ∧
      o.val = (Distributed_step1Local.copy h.next A ⟨h.next + 1⟩).1 ∧
      o.val.input.get .data = A.input.get .data ∧
      o.val.input.get .groundTruth = A.input.get .groundTruth ∧
      o.val.input.getModel .inputModel = A.input.getModel .inputModel ∧
      o.val.parameter = A.parameter :=
  ⟨fun address => step1Local_copy_fields address A h,
    ⟨h.next, (Distributed_step1Local.copy h.next A ⟨h.next + 1⟩).1⟩, rfl, rfl,
    step1Local_copy_fields h.next A ⟨h.next + 1⟩⟩

end

section

variable {Method Parameter DistributedPartialResult Result : Type}

theorem step2Master_copy_fields [Inhabited Parameter] [Inhabited DistributedPartialResult]
    (address : Nat)
    (A : Distributed_step2Master Method Parameter DistributedPartialResult Result)
    (h : Heap) :
    (Distributed_step2Master.copy address A h).1.input.get .partialResults =
      A.input.get .partialResults ∧
    (Distributed_step2Master.copy address A h).1.parameter = A.parameter :=
  ⟨rfl, rfl⟩

/-- C10. For every algorithm `A` of type `Distributed<step2Master, ...>` the
algorithm built by the copy constructor from `A` (at any address), and so the
one `A.clone()` returns (a non-null pointer to the copy built at a fresh
address), has the same input object as `A` for the id `partialResults` and a
parameter equal to `A.parameter`. -/
theorem step2Master_clone_keeps_input_and_parameter [Inhabited Parameter]
    [Inhabited DistributedPartialResult]
    (A : Distributed_step2Master Method Parameter DistributedPartialResult Result)
    (h : Heap) :
    (∀ address : Nat,
      (Distributed_step2Master.copy address A h).1.input.get .partialResults =
        A.input.get .partialResults ∧
      (Distributed_step2Master.copy address A h).1.parameter = A.parameter) ∧
    ∃ o : Obj (Distributed_step2Master Method Parameter DistributedPartialResult Result),
      (A.clone h).1.get = some o ∧
      o.val = (Distributed_step2Master.copy h.next A ⟨h.next + 1⟩).1 ∧
      o.val.input.get .partialResults = A.input.get .partialResults ∧
      o.val.parameter = A.parameter :=
  ⟨fun address => step2Master_copy_fields address A h,
    ⟨h.next, (Distributed_step2Master.copy h.next A ⟨h.next + 1⟩).1⟩, rfl, rfl,
    step2Master_copy_fields h.next A ⟨h.next + 1⟩⟩

end

/-- C8, at a concrete input: a default-constructed algorithm (built at address
0 on a heap whose next free address is 1) and the non-null result pointer to
an object at address 7. -/
theorem step1Local_setResult_witness :
    (⟨some ⟨7, 3⟩⟩ : SharedPtr Nat).toBool = true ∧
    ((Distributed_step1Local.create .float 0 0 ⟨1⟩ :
        Distributed_step1Local Nat Nat Nat Nat × Heap).1.setResult
      ⟨some ⟨7, 3⟩⟩).getResult = ⟨some ⟨7, 3⟩⟩ ∧
    ((Distributed_step1Local.create .float 0 0 ⟨1⟩ :
        Distributed_step1Local Nat Nat Nat Nat × Heap).1.setResult
      SharedPtr.null).getResult = ⟨some ⟨3, 0⟩⟩ :=
  ⟨rfl,
    ((step1Local_setResult (Distributed_step1Local.create .float 0 0 ⟨1⟩ :
      Distributed_step1Local Nat Nat Nat Nat × Heap).1).2 ⟨some ⟨7, 3⟩⟩ rfl).1,
    (step1Local_setResult (Distributed_step1Local.create .float 0 0 ⟨1⟩ :
      Distributed_step1Local Nat Nat Nat Nat × Heap).1).1.2.1⟩

end algorithms.neural_networks.training

namespace algorithms.neural_networks.training

section

variable {Method Parameter PartialResult Result : Type}

/-- C11. For every algorithm `Distributed<step1Local, ...>` and every partial
result pointer `p`, the null pointer included, after `setPartialResult(p)` the
call `getPartialResult()` returns `p` and the raw partial result pointer
`_pres` equals `p.get()`; no error is reported, for the null pointer either,
where `setResult` reports `ErrorNullResult`. -/
theorem step1Local_getPartialResult_setPartialResult
    (A : Distributed_step1Local Method Parameter PartialResult Result)
    (p : SharedPtr PartialResult) :
    ((A.setPartialResult p).getPartialResult = p ∧
      (A.setPartialResult p)._pres = p.get ∧
      (A.setPartialResult p)._errors = A._errors) ∧
    ((A.setPartialResult SharedPtr.null).getPartialResult = SharedPtr.null ∧
      (A.setPartialResult SharedPtr.null)._pres = none ∧
      (A.setPartialResult SharedPtr.null)._errors = A._errors ∧
      (A.setResult SharedPtr.null)._errors = A._errors ++ [ErrorID.ErrorNullResult]) :=
  ⟨⟨rfl, rfl, rfl⟩, rfl, rfl, rfl, rfl⟩

end

section

variable {Method Parameter Topology : Type}

/-- C12. For every algorithm `Distributed<step2Master, ...>`, `getResult()`
is `_partialResult->get(resultFromMaster)`: it returns the element stored
under the id `resultFromMaster` in the current partial result (and, as that
expression, it has no defined value when the partial result pointer is
null).  In particular, for every non-null partial result `p`, after
`setPartialResult(p)` the call `getResult()` returns
`p->get(resultFromMaster)`.  The algorithm keeps no result of its own:
`getResult()` is determined by the partial result pointer alone, and
`allocateResult()` changes nothing. -/
theorem step2Master_getResult
    (A : Distributed_step2Master Method Parameter DistributedPartialResult Result) :
    Distributed_step2Master.getResult A =
      A.getPartialResult.get.map (fun o => o.val.get .resultFromMaster) ∧
    (∀ o : Obj DistributedPartialResult, A.getPartialResult.get = some o →
      Distributed_step2Master.getResult A = some (o.val.get .resultFromMaster)) ∧
    (∀ (p : DistributedPartialResultPtr) (o : Obj DistributedPartialResult),
      p.get = some o →
      (A.setPartialResult p).getPartialResult = p ∧
      Distributed_step2Master.getResult (A.setPartialResult p) =
        some (o.val.get .resultFromMaster)) ∧
    (∀ B : Distributed_step2Master Method Parameter DistributedPartialResult Result,
      B.getPartialResult = A.getPartialResult →
      Distributed_step2Master.getResult B = Distributed_step2Master.getResult A) ∧
    A.allocateResult = A := by
  refine ⟨?_, ?_, ?_, ?_, rfl⟩
  · simp only [Distributed_step2Master.getResult, Distributed_step2Master.getPartialResult]
    cases A._partialResult.get <;> rfl
  · intro o ho
    simp only [Distributed_step2Master.getPartialResult] at ho
    simp only [Distributed_step2Master.getResult, ho]
  · intro p o ho
    refine ⟨rfl, ?_⟩
    simp only [Distributed_step2Master.getResult, Distributed_step2Master.setPartialResult,
      ho]
  · intro B hB
    simp only [Distributed_step2Master.getPartialResult] at hB
    simp only [Distributed_step2Master.getResult, hB]

/-- C12, at a concrete input: on the algorithm whose members are
default-constructed at address 0, after `setPartialResult` of the sample
partial result `getResult()` returns the sample result. -/
theorem step2Master_getResult_witness :
    (⟨some samplePartialResult⟩ : DistributedPartialResultPtr).get =
      some samplePartialResult ∧
    Distributed_step2Master.getResult
      ((Distributed_step2Master.members .float 0 0 :
          Distributed_step2Master Nat Nat DistributedPartialResult Result).setPartialResult
        ⟨some samplePartialResult⟩) = some ⟨some sampleResult⟩ :=
  ⟨rfl, ((step2Master_getResult (Distributed_step2Master.members .float 0 0 :
      Distributed_step2Master Nat Nat DistributedPartialResult Result)).2.2.1
    ⟨some samplePartialResult⟩ samplePartialResult rfl).2⟩

/-- C13. For every data size collection and every topology, when the partial
result, the result it holds under `resultFromMaster` and the model this result
holds under `model` exist, `initialize(dataSize, topology)` calls
`Model::initialize<algorithmFPType>` on exactly that model, the one
`getResult()->get(model)` returns, with the given `dataSize`, the given
`topology` and the address of the algorithm's own `parameter`; the algorithm
is left as it was, so neither the partial result pointer nor the input
changes. -/
theorem step2Master_initialize_model
    (A : Distributed_step2Master Method Parameter DistributedPartialResult Result)
    (dataSize : List Nat) (topology : Topology) (result : ResultPtr) (res : Obj Result)
    (m : Obj SerializationIface)
    (hresult : Distributed_step2Master.getResult A = some result)
    (hres : result.get = some res) (hm : (res.val.get .model).get = some m) :
    ∃ (A1 : Distributed_step2Master Method Parameter DistributedPartialResult Result)
      (call : ModelInitializeCall Topology),
      A.initializeTopology dataSize topology = some (A1, call) ∧
      call.model = m ∧ call.dataSize = dataSize ∧ call.topology = topology ∧
      call.parameter = some ⟨A.address, .parameter⟩ ∧
      call.algorithmFPType = A.algorithmFPType ∧
      A1.getPartialResult = A.getPartialResult ∧ A1.input = A.input ∧ A1 = A := by
  refine ⟨A, ⟨m, A.algorithmFPType, dataSize, topology, some ⟨A.address, .parameter⟩⟩,
    ?_, rfl, rfl, rfl, rfl, rfl, rfl, rfl, rfl⟩
  simp only [Distributed_step2Master.initializeTopology, hresult, hres, hm]

/-- C13, at a concrete input: on the algorithm built at address 0 that holds
the sample partial result, `initialize` with the data size `[2, 3]` and the
topology `5` reaches the sample model, at address 48, and passes the address
of the member `parameter` of the object at address 0. -/
theorem step2Master_initialize_model_witness :
    ∃ (A1 : Distributed_step2Master Nat Nat DistributedPartialResult Result)
      (call : ModelInitializeCall Nat),
      ((Distributed_step2Master.members .float 0 0 :
          Distributed_step2Master Nat Nat DistributedPartialResult Result).setPartialResult
        ⟨some samplePartialResult⟩).initializeTopology [2, 3] 5 = some (A1, call) ∧
      call.model = sampleModel ∧ call.dataSize = [2, 3] ∧ call.topology = 5 ∧
      call.parameter = some ⟨0, .parameter⟩ := by
  obtain ⟨A1, call, h1, h2, h3, h4, h5, _⟩ :=
    step2Master_initialize_model
      ((Distributed_step2Master.members .float 0 0 :
          Distributed_step2Master Nat Nat DistributedPartialResult Result).setPartialResult
        ⟨some samplePartialResult⟩)
      [2, 3] (5 : Nat) ⟨some sampleResult⟩ sampleResult sampleModel rfl rfl rfl
  exact ⟨A1, call, h1, h2, h3, h4, h5⟩

end

end algorithms.neural_networks.training

namespace algorithms.neural_networks.training

section

variable {Method CpuType Env Parameter : Type}

/-- C16. The container `BatchContainer<algorithmFPType, method, cpu>` binds
each invocation to the one kernel `TrainingKernelBatch` instantiated for its
own `algorithmFPType` and `method` (and `cpu`).  In every state of the
container, whatever its environment pointer is, on the kernel it holds
`compute()` calls `compute` with the data tensor of the input, the model of
the result and the ground truth collection of the input, `setupCompute()`
calls `initialize` with the same three objects followed by the parameter of
the algorithm (the two read the input and the result the algorithm handed
over), and `resetCompute()` calls `reset` with no argument.  The constructor
creates that kernel and leaves the environment pointer null, so on a
constructed container that was handed an input and a result the three calls
go to the kernel `TrainingKernelBatch<algorithmFPType, method, cpu>` created
by the constructor. -/
theorem batchContainer_kernel_calls (C : BatchContainer Method CpuType Env Parameter) :
    (∀ (input : Obj Input) (result : Obj Result),
      C._in = some input → C._res = some result →
      C.compute = some
        { kernelClass := ⟨C.algorithmFPType, C.method, C.cpu⟩
          kernel := C._kernel
          member := "compute"
          arguments :=
            [.tensor (input.val.get .data).get, .model (result.val.get .model).get,
              .collection (input.val.getCollection .groundTruthCollection)] } ∧
      C.setupCompute = some
        { kernelClass := ⟨C.algorithmFPType, C.method, C.cpu⟩
          kernel := C._kernel
          member := "initialize"
          arguments :=
            [.tensor (input.val.get .data).get, .model (result.val.get .model).get,
              .collection (input.val.getCollection .groundTruthCollection),
              .parameter C._par] }) ∧
    C.resetCompute =
      { kernelClass := ⟨C.algorithmFPType, C.method, C.cpu⟩
        kernel := C._kernel
        member := "reset"
        arguments := [] } ∧
    ∀ (algorithmFPType : FPType) (method : Method) (cpu : CpuType) (daalEnv : RawPtr Env)
      (h : Heap),
      ((BatchContainer.create algorithmFPType method cpu daalEnv h :
          BatchContainer Method CpuType Env Parameter × Heap).1._kernel =
          some ⟨h.next, ⟨algorithmFPType, method, cpu⟩⟩ ∧
        (BatchContainer.create algorithmFPType method cpu daalEnv h :
          BatchContainer Method CpuType Env Parameter × Heap).1._env = none ∧
        (BatchContainer.create algorithmFPType method cpu daalEnv h :
          BatchContainer Method CpuType Env Parameter × Heap).1.algorithmFPType =
          algorithmFPType ∧
        (BatchContainer.create algorithmFPType method cpu daalEnv h :
          BatchContainer Method CpuType Env Parameter × Heap).1.method = method ∧
        (BatchContainer.create algorithmFPType method cpu daalEnv h :
          BatchContainer Method CpuType Env Parameter × Heap).1.cpu = cpu ∧
        (BatchContainer.create algorithmFPType method cpu daalEnv h :
          BatchContainer Method CpuType Env Parameter × Heap).1.resetCompute =
          { kernelClass := ⟨algorithmFPType, method, cpu⟩
            kernel := some ⟨h.next, ⟨algorithmFPType, method, cpu⟩⟩
            member := "reset"
            arguments := [] }) ∧
      ∀ (input : Obj Input) (result : Obj Result) (par : RawPtr Parameter),
        ((BatchContainer.create algorithmFPType method cpu daalEnv h :
            BatchContainer Method CpuType Env Parameter × Heap).1.setArguments
          (some input) (some result) par).compute = some
          { kernelClass := ⟨algorithmFPType, method, cpu⟩
            kernel := some ⟨h.next, ⟨algorithmFPType, method, cpu⟩⟩
            member := "compute"
            arguments :=
              [.tensor (input.val.get .data).get, .model (result.val.get .model).get,
                .collection (input.val.getCollection .groundTruthCollection)] } ∧
        ((BatchContainer.create algorithmFPType method cpu daalEnv h :
            BatchContainer Method CpuType Env Parameter × Heap).1.setArguments
          (some input) (some result) par).setupCompute = some
          { kernelClass := ⟨algorithmFPType, method, cpu⟩
            kernel := some ⟨h.next, ⟨algorithmFPType, method, cpu⟩⟩
            member := "initialize"
            arguments :=
              [.tensor (input.val.get .data).get, .model (result.val.get .model).get,
                .collection (input.val.getCollection .groundTruthCollection),
                .parameter par] } := by
  refine ⟨?_, rfl, fun _ _ _ _ _ => ⟨⟨rfl, rfl, rfl, rfl, rfl, rfl⟩, fun _ _ _ => ⟨rfl, rfl⟩⟩⟩
  intro input result h_in h_res
  constructor
  · simp only [BatchContainer.compute, h_in, h_res, DAAL_CALL_KERNEL]
  · simp only [BatchContainer.setupCompute, h_in, h_res, DAAL_CALL_KERNEL]

end

/-- C16, at a concrete input: the container the constructor builds for single
precision, method 0 and CPU variant 2 on a heap whose next free address is 1,
its environment pointer left null, after the algorithm handed over the sample
input, the sample result and a parameter at address 3. -/
theorem batchContainer_kernel_calls_witness :
    ((BatchContainer.create .float 0 2 none ⟨1⟩ :
        BatchContainer Nat Nat Unit Nat × Heap).1.setArguments
      (some sampleTrainingInput) (some sampleResult) (some ⟨3, 0⟩))._env = none ∧
    ((BatchContainer.create .float 0 2 none ⟨1⟩ :
        BatchContainer Nat Nat Unit Nat × Heap).1.setArguments
      (some sampleTrainingInput) (some sampleResult) (some ⟨3, 0⟩)).setupCompute = some
      { kernelClass := ⟨.float, 0, 2⟩
        kernel := some ⟨1, ⟨.float, 0, 2⟩⟩
        member := "initialize"
        arguments :=
          [.tensor (some ⟨9, .tensor [4, 2]⟩), .model (some sampleModel),
            .collection ⟨some ⟨10, .keyValueDataCollection [0]⟩⟩,
            .parameter (some ⟨3, 0⟩)] } :=
  ⟨rfl,
    ((batchContainer_kernel_calls
      ((BatchContainer.create .float 0 2 none ⟨1⟩ :
          BatchContainer Nat Nat Unit Nat × Heap).1.setArguments
        (some sampleTrainingInput) (some sampleResult) (some ⟨3, 0⟩))).1
      sampleTrainingInput sampleResult rfl rfl).2⟩

end algorithms.neural_networks.training

namespace algorithms.neural_networks.initializers.truncated_gaussian

/-- C15. The truncated gaussian initializer `Parameter` constructed with no
arguments is the parameter constructed with mean 0, standard deviation 1.0
and seed 777; leaving out the last arguments fills them with these defaults:
`Parameter(m)` is `Parameter(m, 1.0, 777)` and `Parameter(m, s)` is
`Parameter(m, s, 777)`. -/
theorem parameter_default_arguments {Double FPValue : Type} [OfNat Double 0]
    [OfScientific Double] (body : Double → Double → Nat → Parameter Double FPValue)
    (m s : Double) :
    Parameter.create body .none = Parameter.create body (.meanSigmaSeed 0 1.0 777) ∧
    Parameter.create body (.mean m) = Parameter.create body (.meanSigmaSeed m 1.0 777) ∧
    Parameter.create body (.meanSigma m s) =
      Parameter.create body (.meanSigmaSeed m s 777) ∧
    ∀ seed : Nat, Parameter.create body (.meanSigmaSeed m s seed) = body m s seed :=
  ⟨rfl, rfl, rfl, fun _ => rfl⟩

end algorithms.neural_networks.initializers.truncated_gaussian

namespace algorithms.neural_networks.layers.split.backward

section

variable {BaseResult InputDataArchive OutputDataArchive : Type}

/-- C18. The backward split layer `Result` identifies its persisted type by
the constant tag `SERIALIZATION_NEURAL_NETWORKS_LAYERS_SPLIT_BACKWARD_RESULT_ID`,
which `getSerializationTag` returns in every state, and adds no data of its
own to the archive: `serializeImpl` and `deserializeImpl` perform exactly the
serialization and the deserialization of the base `daal::algorithms::Result`.
So deserializing (into any `Result`) the archive `serializeImpl` wrote, handed
over to the reader by `handover`, restores the `Result` whenever the round
trip of the base class restores its base part. -/
theorem result_serialization_is_base_serialization (tag : Int)
    (baseSerialize : BaseResult → InputDataArchive → BaseResult × InputDataArchive)
    (baseDeserialize : BaseResult → OutputDataArchive → BaseResult × OutputDataArchive)
    (handover : InputDataArchive → OutputDataArchive) (r r0 : Result BaseResult)
    (arch : InputDataArchive) (archOut : OutputDataArchive) :
    (r.getSerializationTag tag = tag ∧ r0.getSerializationTag tag = tag) ∧
    ((r.serializeImpl baseSerialize arch).2 = (baseSerialize r.toResult arch).2 ∧
      (r.serializeImpl baseSerialize arch).1.toResult =
        (baseSerialize r.toResult arch).1) ∧
    ((r0.deserializeImpl baseDeserialize archOut).2 =
        (baseDeserialize r0.toResult archOut).2 ∧
      (r0.deserializeImpl baseDeserialize archOut).1.toResult =
        (baseDeserialize r0.toResult archOut).1) ∧
    ((baseDeserialize r0.toResult (handover (baseSerialize r.toResult arch).2)).1 =
        r.toResult →
      (r0.deserializeImpl baseDeserialize
        (handover (r.serializeImpl baseSerialize arch).2)).1 = r) := by
  refine ⟨⟨rfl, rfl⟩, ⟨rfl, rfl⟩, ⟨rfl, rfl⟩, ?_⟩
  intro hbase
  cases r
  simp only [Result.deserializeImpl, Result.serializeImpl, Result.serialImpl] at hbase ⊢
  rw [hbase]

end

/-- C18, at a concrete input: a base class that writes its content, a list of
numbers, at the end of the archive and reads the whole archive back; the
result holding `[1, 2]`, written to the empty archive and read into an empty
result, is restored. -/
theorem result_serialization_is_base_serialization_witness :
    ((⟨[]⟩ : Result (List Nat)).deserializeImpl (fun _ a => (a, ([] : List Nat)))
      (id ((⟨[1, 2]⟩ : Result (List Nat)).serializeImpl
        (fun b (a : List Nat) => (b, a ++ b)) []).2)).1 = ⟨[1, 2]⟩ :=
  (result_serialization_is_base_serialization 0 (fun b (a : List Nat) => (b, a ++ b))
    (fun _ a => (a, ([] : List Nat))) id ⟨[1, 2]⟩ ⟨[]⟩ [] []).2.2.2 rfl

end algorithms.neural_networks.layers.split.backward

namespace algorithms.normalization.minmax

section

variable {Double MomentsMethod MomentsParameter MomentsResult ParameterBase : Type}

/-- C14. For every `lowerBound` and `upperBound`, the two-argument constructor
of `Parameter<algorithmFPType>` builds the same parameter as the
three-argument constructor called with the same bounds and with a non-null
moments algorithm that is a newly default-constructed
`low_order_moments::Batch<algorithmFPType>` (method `defaultDense`, the
parameter's own floating-point type); both constructors hand `lowerBound` and
`upperBound` to `ParameterBase` unchanged and in this order. -/
theorem parameter_default_moments [Inhabited MomentsParameter] [Inhabited MomentsResult]
    (parameterBase : Double → Double →
      LowOrderMomentsPtr MomentsMethod MomentsParameter MomentsResult → ParameterBase)
    (defaultDense : MomentsMethod) (algorithmFPType : FPType)
    (lowerBound upperBound : Double) (h : Heap) :
    Parameter.create parameterBase defaultDense algorithmFPType lowerBound upperBound h =
      Parameter.create_spec parameterBase defaultDense algorithmFPType lowerBound
        upperBound h ∧
    (∃ o : Obj (low_order_moments.Batch MomentsMethod MomentsParameter MomentsResult),
      (defaultMoments defaultDense algorithmFPType h).1.get = some o ∧
      o.addr = h.next ∧
      o.val = (low_order_moments.Batch.create algorithmFPType defaultDense h.next
        ⟨h.next + 1⟩).1 ∧
      o.val.algorithmFPType = algorithmFPType ∧ o.val.method = defaultDense) ∧
    (Parameter.create parameterBase defaultDense algorithmFPType lowerBound upperBound
        h).1.toParameterBase =
      parameterBase lowerBound upperBound
        (defaultMoments defaultDense algorithmFPType h).1 ∧
    ∀ moments : LowOrderMomentsPtr MomentsMethod MomentsParameter MomentsResult,
      (Parameter.createWithMoments parameterBase algorithmFPType lowerBound upperBound
        moments).toParameterBase = parameterBase lowerBound upperBound moments :=
  ⟨rfl, ⟨_, rfl, rfl, rfl, rfl, rfl⟩, rfl, fun _ => rfl⟩

end

end algorithms.normalization.minmax

namespace algorithms.cosine_distance

/-- C17. The dispatch container instantiated for the cosine distance algorithm
(batch mode, precision `DAAL_FPTYPE`, method `defaultDense`) selects the
variant from the CPU and the precision: for every CPU variant it creates and
runs the `cosine_distance::BatchContainer` instantiated for `DAAL_FPTYPE`,
`defaultDense` and that CPU variant, and no other container. -/
theorem dispatchContainer_selects_cpu_variant {CpuType : Type} (DAAL_FPTYPE : FPType)
    (cpuid : CpuType) (h : Heap) :
    (dispatchContainer DAAL_FPTYPE cpuid h).1._cntr =
      some ⟨h.next, ⟨"cosine_distance::BatchContainer", DAAL_FPTYPE, .defaultDense, cpuid⟩⟩ ∧
    (dispatchContainer DAAL_FPTYPE cpuid h).1.mode = .batch ∧
    (dispatchContainer DAAL_FPTYPE cpuid h).2 = ⟨h.next + 1⟩ :=
  ⟨rfl, rfl, rfl⟩

end algorithms.cosine_distance

end daal
